import Mathlib

/-!
Shallow embedding of `stratum/hal/lib/tdi/dpdk/dpdk_chassis_manager.cc`
(the DPDK chassis manager of the stratum repository): the port/chassis
configuration reconciliation engine.  C++ `std::map`s are embedded as
sorted association lists over `Nat` keys, `absl::optional` fields as
`Option`, proto enums as small inductives or `Nat` (with `0` the proto
default / "unknown" value), `absl::Time` as `Nat` (UnixEpoch = 0), and
the `TdiSdeInterface` backend as an oracle structure of pure functions.
Every backend invocation is also recorded in an event trace (`SdeCall`)
so that claims about which Device Interface calls are issued can be
stated.  `::util::Status` becomes `Except Err Unit`; each `MAKE_ERROR`
site of the source gets its own `Err` constructor (RET_CHECK failures
carry the distinguishing part of their message).
-/

namespace DpdkChassis

/-- `AdminState` proto enum (ADMIN_STATE_UNKNOWN / DISABLED / ENABLED / DIAG). -/
inductive AdminState where
  | unknown
  | disabled
  | enabled
  | diag
deriving DecidableEq, Repr

/-- `TriState` proto enum (TRI_STATE_UNKNOWN / TRI_STATE_FALSE / TRI_STATE_TRUE),
used for the autoneg policy. -/
inductive TriState where
  | unknown
  | no
  | yes
deriving DecidableEq, Repr

/-- `PortState` proto enum; only `PORT_STATE_UNKNOWN` matters to the claims,
the rest is collapsed into `up`/`down`. -/
inductive PortState where
  | unknown
  | up
  | down
deriving DecidableEq, Repr

/-- `PortKey`: the (slot, port, channel) triple identifying physical wiring. -/
structure PortKey where
  slot : Nat
  port : Nat
  channel : Nat
deriving DecidableEq, Repr

/-- The `config_params` submessage of a `SingletonPort`.  `mtu = 0` and
`loopback_mode = 0` (LOOPBACK_STATE_UNKNOWN) and `fec_mode = 0` are the
proto defaults. -/
structure ConfigParams where
  admin_state : AdminState := .unknown
  mtu : Nat := 0
  autoneg : TriState := .unknown
  loopback_mode : Nat := 0
  fec_mode : Nat := 0
  port_type : Nat := 0
  pipeline_name : String := ""
deriving DecidableEq, Repr

/-- A desired `SingletonPort` of the ChassisConfig. -/
structure SingletonPort where
  id : Nat := 0
  name : String := ""
  slot : Nat := 0
  port : Nat := 0
  channel : Nat := 0
  node : Nat := 0
  speed_bps : Nat := 0
  config_params : ConfigParams := {}
deriving DecidableEq, Repr

/-- A `Node` message of the ChassisConfig. -/
structure Node where
  id : Nat := 0
  slot : Nat := 0
deriving DecidableEq, Repr

/-- The ChassisConfig message: nodes, singleton ports, the (unsupported)
trunk-port and port-group lists kept as bare counts, and the chassis
platform (`none` = no Chassis message; the platform enum value `0` is the
proto default, i.e. falsy). -/
structure ChassisConfig where
  nodes : List Node := []
  singleton_ports : List SingletonPort := []
  trunk_ports_size : Nat := 0
  port_groups_size : Nat := 0
  chassis_platform : Option Nat := none
deriving DecidableEq, Repr

/-- The cached per-port `PortConfig` of the manager (header
`dpdk_chassis_manager.h`, which is not among the given sources; its field
set and defaults are reconstructed from every use in the .cc file: all
optionals start disengaged, `admin_state` starts `ADMIN_STATE_UNKNOWN`,
strings start empty, plain ints start 0). -/
structure PortConfig where
  admin_state : AdminState := .unknown
  speed_bps : Option Nat := none
  fec_mode : Option Nat := none
  mtu : Option Nat := none
  autoneg : Option TriState := none
  loopback_mode : Option Nat := none
  port_type : Nat := 0
  pipeline_name : String := ""
  mempool_name : String := ""
  control_port : String := ""
  device_type : Nat := 0
  packet_dir : Nat := 0
  queues : Nat := 0
  socket_path : String := ""
  host_name : String := ""
  pci_bdf : String := ""
deriving DecidableEq, Repr

/-- `TdiSdeInterface::PortConfigParams`, as populated by `AddPortHelper`. -/
structure SdePortParams where
  port_type : Nat := 0
  device_type : Nat := 0
  packet_dir : Nat := 0
  queues : Nat := 0
  mtu : Nat := 0
  socket_path : String := ""
  host_name : String := ""
  port_name : String := ""
  pipeline_name : String := ""
  mempool_name : String := ""
  pci_bdf : String := ""
deriving DecidableEq, Repr

/-- Modelled from the spec: the numeric constants of
`dpdk_chassis_manager.h` and `stratum/hal/lib/common/constants.h` (neither
header is among the given sources).  The spec fixes their roles (default
MTU, control-port id base `kSdkPortControlBase + sdk_port_id`, reserved
CPU port id, default pipeline/mempool names); the concrete values are
placeholders and no claim depends on them beyond `kDefaultMtu ≠ 0`. -/
def kDefaultMtu : Nat := 1500

/-- Modelled from the spec: base of the derived control-port SDK id range. -/
def kSdkPortControlBase : Nat := 2048

/-- Modelled from the spec: the reserved CPU port id excluded from singleton ports. -/
def kCpuPortId : Nat := 4294967293

/-- Modelled from the spec: default pipeline name used when the config leaves it unset. -/
def kDefaultPipelineName : String := "pipe"

/-- Modelled from the spec: default mempool name used when the config leaves it unset. -/
def kDefaultMempoolName : String := "MEMPOOL0"

/-- Modelled from the spec: the default packet direction constant
(`kDefaultPortPacketDirection`, a nonzero enum value). -/
def kDefaultPortPacketDirection : Nat := 1

/-- Modelled from the spec: `PortConfigParams::PORT_TYPE_TAP` enum value,
forced onto the auto-created control port. -/
def portTypeTap : Nat := 2

/-- Platform enum values accepted by `VerifyChassisConfig` (placeholders for
PLT_GENERIC_BAREFOOT_TOFINO, PLT_GENERIC_BAREFOOT_TOFINO2, PLT_P4_SOFT_SWITCH). -/
def kSupportedPlatforms : List Nat := [1, 2, 3]

/-- Every error produced by the chassis manager, one constructor per
`MAKE_ERROR` site family of the source (`device` stands for an error that
the Device Interface itself returned and the manager propagated verbatim). -/
inductive Err where
  | invalidAdminState
  | unsupportedDiag
  | portNotValid
  | addWithNewSpeedFailed
  | fecModeChanged
  | unknownNodeId
  | speedBpsMissing
  | fecModeMissing
  | notInitialized
  | nodeNotKnown
  | portNotKnown
  | rebootPortLayout
  | rebootNodeUnit
  | unsupportedPlatform
  | verifyCheck (msg : String)
  | device (msg : String)
deriving DecidableEq, Repr

/-- One recorded Device Interface invocation. -/
inductive SdeCall where
  | getPortIdFromPortKey (unit : Nat) (key : PortKey)
  | isValidPort (unit sdk_port : Nat)
  | addPort (unit port speed : Nat) (params : SdePortParams) (fec : Nat)
  | addPortSimple (unit port speed fec : Nat)
  | deletePort (unit port : Nat)
  | disablePort (unit port : Nat)
  | setPortAutonegPolicy (unit port : Nat) (an : TriState)
  | setPortLoopbackMode (unit port loopback : Nat)
  | getPortCounters (unit port : Nat)
deriving DecidableEq, Repr

/-- Whether a recorded call mutates backend state (create/destroy/disable or
a setter), as opposed to the pure queries (port-key resolution, validity
probe, counters). -/
def SdeCall.isMutation : SdeCall → Bool
  | .getPortIdFromPortKey _ _ => false
  | .isValidPort _ _ => false
  | .getPortCounters _ _ => false
  | _ => true

/-- The Device Interface oracle: one pure function per backend operation used
by the chassis manager.  `addPortSimple` is the two-parameter `AddPort`
overload that `ReplayPortsConfig` invokes. -/
structure Sde where
  getPortIdFromPortKey : Nat → PortKey → Except Err Nat
  isValidPort : Nat → Nat → Bool
  addPort : Nat → Nat → Nat → SdePortParams → Nat → Except Err Unit
  addPortSimple : Nat → Nat → Nat → Nat → Except Err Unit
  deletePort : Nat → Nat → Except Err Unit
  disablePort : Nat → Nat → Except Err Unit
  setPortAutonegPolicy : Nat → Nat → TriState → Except Err Unit
  setPortLoopbackMode : Nat → Nat → Nat → Except Err Unit
  getPortCounters : Nat → Nat → Except Err Nat

/-- Sorted-association-list insert for a `std::map` with `Nat` keys:
replaces the value on an existing key, keeps keys strictly increasing. -/
def fmInsert {β : Type} (m : List (Nat × β)) (k : Nat) (v : β) : List (Nat × β) :=
  match m with
  | [] => [(k, v)]
  | (k', v') :: rest =>
    if k < k' then (k, v) :: (k', v') :: rest
    else if k = k' then (k, v) :: rest
    else (k', v') :: fmInsert rest k v

/-- Lookup in an association list (`std::map::find` / `gtl::FindOrNull`). -/
def fmFind? {β : Type} (m : List (Nat × β)) (k : Nat) : Option β :=
  match m with
  | [] => none
  | (k', v') :: rest => if k = k' then some v' else fmFind? rest k

/-- Nested-map lookup `m[n][p]` that fails when either key is absent. -/
def fmFind2? {β : Type} (m : List (Nat × List (Nat × β))) (n p : Nat) : Option β :=
  match fmFind? m n with
  | none => none
  | some inner => fmFind? inner p

/-- Nested-map write `m[n][p] = v` (default-constructing the inner map when
the outer key is new, as `operator[]` does). -/
def fmInsert2 {β : Type} (m : List (Nat × List (Nat × β))) (n p : Nat) (v : β) :
    List (Nat × List (Nat × β)) :=
  fmInsert m n (fmInsert ((fmFind? m n).getD []) p v)

/-- `AddPortHelper`: configures a brand-new port.  Takes the current value of
the caller's out-parameter `config` (the C++ writes through a pointer, so
partial writes are visible to the caller even on error) and returns the
status, the final out-parameter value and the backend calls issued. -/
def AddPortHelper (node_id unit sdk_port_id : Nat) (singleton_port : SingletonPort)
    (config0 : PortConfig) (sde : Sde) :
    Except Err Unit × PortConfig × List SdeCall :=
  let config := { config0 with admin_state := .unknown }
  let port_id := singleton_port.id
  let cp := singleton_port.config_params
  if cp.admin_state = .unknown then (.error .invalidAdminState, config, [])
  else if cp.admin_state = .diag then (.error .unsupportedDiag, config, [])
  else
    let config := { config with
      speed_bps := some singleton_port.speed_bps
      admin_state := .disabled
      fec_mode := some cp.fec_mode
      port_type := cp.port_type
      pipeline_name :=
        if cp.pipeline_name ≠ "" then config.pipeline_name else kDefaultPipelineName
      mempool_name :=
        if config.mempool_name ≠ "" then config.mempool_name else kDefaultMempoolName
      mtu := some (if cp.mtu ≠ 0 then cp.mtu else kDefaultMtu) }
    let sde_params : SdePortParams := {
      port_type := cp.port_type
      device_type := config.device_type
      packet_dir :=
        if config.packet_dir ≠ 0 then config.packet_dir else kDefaultPortPacketDirection
      queues := config.queues
      mtu := config.mtu.getD 0
      socket_path := config.socket_path
      host_name := config.host_name
      port_name := singleton_port.name
      pipeline_name :=
        if config.pipeline_name ≠ "" then config.pipeline_name else kDefaultPipelineName
      mempool_name :=
        if config.mempool_name ≠ "" then config.mempool_name else kDefaultMempoolName
      pci_bdf := config.pci_bdf }
    -- NOTE: the source passes `port_id` (the SDN port id), not `sdk_port_id`,
    -- to the data-port AddPort call.
    let c1 := SdeCall.addPort unit port_id singleton_port.speed_bps sde_params cp.fec_mode
    match sde.addPort unit port_id singleton_port.speed_bps sde_params cp.fec_mode with
    | .error e => (.error e, config, [c1])
    | .ok _ =>
      let afterCtl : Except Err Unit × List SdeCall :=
        if config.control_port ≠ "" then
          let sde_params2 := { sde_params with
            port_type := portTypeTap
            packet_dir := kDefaultPortPacketDirection }
          let sdk_ctl := kSdkPortControlBase + sdk_port_id
          (sde.addPort unit sdk_ctl singleton_port.speed_bps sde_params2 cp.fec_mode,
           [SdeCall.addPort unit sdk_ctl singleton_port.speed_bps sde_params2 cp.fec_mode])
        else (.ok (), [])
      match afterCtl with
      | (.error e, tr2) => (.error e, config, c1 :: tr2)
      | (.ok _, tr2) =>
        -- MTU: the SetPortMtu backend calls are commented out in the source;
        -- `config.mtu` is always engaged here so the else-branch is dead.
        let config :=
          if config.mtu.isSome then config
          else if cp.mtu ≠ 0 then { config with mtu := some cp.mtu } else config
        match (if cp.autoneg ≠ .unknown then
                 (sde.setPortAutonegPolicy unit sdk_port_id cp.autoneg,
                  [SdeCall.setPortAutonegPolicy unit sdk_port_id cp.autoneg])
               else (.ok (), [])) with
        | (.error e, tr3) => (.error e, config, c1 :: tr2 ++ tr3)
        | (.ok _, tr3) =>
          let config := { config with autoneg := some cp.autoneg }
          match (if cp.loopback_mode ≠ 0 then
                   (sde.setPortLoopbackMode unit sdk_port_id cp.loopback_mode,
                    [SdeCall.setPortLoopbackMode unit sdk_port_id cp.loopback_mode])
                 else (.ok (), [])) with
          | (.error e, tr4) => (.error e, config, c1 :: tr2 ++ tr3 ++ tr4)
          | (.ok _, tr4) =>
            let config := { config with loopback_mode := some cp.loopback_mode }
            -- EnablePort is commented out in the source; only the cached
            -- admin_state is committed.
            let config :=
              if cp.admin_state = .enabled then { config with admin_state := .enabled }
              else config
            (.ok (), config, c1 :: tr2 ++ tr3 ++ tr4)

/-- Modelled from the spec: `BuildSingletonPort` (stratum common utils, not
among the given sources) constructs a `SingletonPort` carrying the given
slot, port, channel and speed, all other fields default. -/
def BuildSingletonPort (slot port channel speed_bps : Nat) : SingletonPort :=
  { slot := slot, port := port, channel := channel, speed_bps := speed_bps }

/-- The rollback `SingletonPort` that `UpdatePortHelper` rebuilds from the
previously applied config when re-adding a port with a new speed failed:
`BuildSingletonPort` with the old speed, then admin_state always and
autoneg/mtu/fec_mode when the old config holds them.  (The source derefs
`*config_old.speed_bps`; the engaged case is the only one reachable,
`getD 0` stands for the deref.) -/
def rollbackSingletonPort (singleton_port : SingletonPort) (config_old : PortConfig) :
    SingletonPort :=
  let p := BuildSingletonPort singleton_port.slot singleton_port.port
    singleton_port.channel (config_old.speed_bps.getD 0)
  let cp := { p.config_params with admin_state := config_old.admin_state }
  let cp := match config_old.autoneg with
    | some a => { cp with autoneg := a }
    | none => cp
  let cp := match config_old.mtu with
    | some m => { cp with mtu := m }
    | none => cp
  let cp := match config_old.fec_mode with
    | some f => { cp with fec_mode := f }
    | none => cp
  { p with config_params := cp }

/-- The two booleans of the admin-state transition matrix of
`UpdatePortHelper` (need_disable, need_enable), as functions of the
requested admin state, the previously applied admin state and the
`config_changed` flag. -/
def adminTransition (desired old_admin : AdminState) (config_changed : Bool) :
    Bool × Bool :=
  if desired = .disabled then (decide (old_admin ≠ .disabled), false)
  else if desired = .enabled then
    let need_disable := config_changed && decide (old_admin ≠ .disabled)
    (need_disable, need_disable || decide (old_admin = .disabled))
  else (false, false)

/-- The field-level delta pass of `UpdatePortHelper`: MTU (backend call
commented out in the source), autoneg and loopback, each compared against
the previously applied config; returns the updated out-config, the
`config_changed` flag and the calls issued.  Each C++ comparison is of a
plain proto value against an `absl::optional` (true when disengaged or
different). -/
def updateApplyDeltas (unit sdk_port_id : Nat) (cp : ConfigParams)
    (config_old config0 : PortConfig) (sde : Sde) :
    Except Err Unit × PortConfig × Bool × List SdeCall :=
  let (config, config_changed) :=
    if some cp.mtu ≠ config_old.mtu then
      ({ config0 with mtu := some cp.mtu }, true)
    else (config0, false)
  if some cp.autoneg ≠ config_old.autoneg then
    let config := { config with autoneg := none }
    let call := SdeCall.setPortAutonegPolicy unit sdk_port_id cp.autoneg
    match sde.setPortAutonegPolicy unit sdk_port_id cp.autoneg with
    | .error e => (.error e, config, config_changed, [call])
    | .ok _ =>
      let config := { config with autoneg := some cp.autoneg }
      if some cp.loopback_mode ≠ config_old.loopback_mode then
        let config := { config with loopback_mode := none }
        let call2 := SdeCall.setPortLoopbackMode unit sdk_port_id cp.loopback_mode
        match sde.setPortLoopbackMode unit sdk_port_id cp.loopback_mode with
        | .error e => (.error e, config, true, [call, call2])
        | .ok _ =>
          (.ok (), { config with loopback_mode := some cp.loopback_mode }, true,
           [call, call2])
      else (.ok (), config, true, [call])
  else
    if some cp.loopback_mode ≠ config_old.loopback_mode then
      let config := { config with loopback_mode := none }
      let call2 := SdeCall.setPortLoopbackMode unit sdk_port_id cp.loopback_mode
      match sde.setPortLoopbackMode unit sdk_port_id cp.loopback_mode with
      | .error e => (.error e, config, config_changed, [call2])
      | .ok _ =>
        (.ok (), { config with loopback_mode := some cp.loopback_mode }, true, [call2])
    else (.ok (), config, config_changed, [])

/-- The tail of `UpdatePortHelper`: evaluate the admin-state transition
matrix against the previously applied admin state and act on it
(DisablePort is a real backend call; the EnablePort call is commented out
in the source, only the cached admin_state is committed). -/
def applyAdminTransition (unit sdk_port_id : Nat) (desired old_admin : AdminState)
    (config_changed : Bool) (config : PortConfig) (sde : Sde) :
    Except Err Unit × PortConfig × List SdeCall :=
  let t := adminTransition desired old_admin config_changed
  if t.1 then
    let call := SdeCall.disablePort unit sdk_port_id
    match sde.disablePort unit sdk_port_id with
    | .error e => (.error e, config, [call])
    | .ok _ =>
      let config := { config with admin_state := .disabled }
      if t.2 then (.ok (), { config with admin_state := .enabled }, [call])
      else (.ok (), config, [call])
  else if t.2 then (.ok (), { config with admin_state := .enabled }, [])
  else (.ok (), config, [])

/-- `UpdatePortHelper`: diffs the desired `SingletonPort` against the
previously applied `PortConfig` and applies the changes.  Returns the
status, the final out-parameter value (the C++ writes `*config` through a
pointer starting from a copy of `config_old`) and the backend calls
issued, in order. -/
def UpdatePortHelper (node_id unit sdk_port_id : Nat) (singleton_port : SingletonPort)
    (config_old : PortConfig) (sde : Sde) :
    Except Err Unit × PortConfig × List SdeCall :=
  let config := config_old
  let cp := singleton_port.config_params
  let probe := SdeCall.isValidPort unit sdk_port_id
  if sde.isValidPort unit sdk_port_id = false then
    (.error .portNotValid,
     { config with admin_state := .unknown, speed_bps := none, fec_mode := none },
     [probe])
  else if some singleton_port.speed_bps ≠ config_old.speed_bps then
    match sde.disablePort unit sdk_port_id with
    | .error e => (.error e, config, [probe, .disablePort unit sdk_port_id])
    | .ok _ =>
      match sde.deletePort unit sdk_port_id with
      | .error e =>
        (.error e, config,
         [probe, .disablePort unit sdk_port_id, .deletePort unit sdk_port_id])
      | .ok _ =>
        let pre := [probe, SdeCall.disablePort unit sdk_port_id,
                    SdeCall.deletePort unit sdk_port_id]
        match AddPortHelper node_id unit sdk_port_id singleton_port config sde with
        | (.ok _, config1, trA) => (.ok (), config1, pre ++ trA)
        | (.error _, config1, trA) =>
          let port_old := rollbackSingletonPort singleton_port config_old
          let r := AddPortHelper node_id unit sdk_port_id port_old config1 sde
          (.error .addWithNewSpeedFailed, r.2.1, pre ++ trA ++ r.2.2)
  else if some cp.fec_mode ≠ config_old.fec_mode then
    (.error .fecModeChanged, config, [probe])
  else if cp.admin_state = .unknown then
    (.error .invalidAdminState, config, [probe])
  else if cp.admin_state = .diag then
    (.error .unsupportedDiag, config, [probe])
  else
    match updateApplyDeltas unit sdk_port_id cp config_old config sde with
    | (.error e, config, _, trD) => (.error e, config, probe :: trD)
    | (.ok _, config, config_changed, trD) =>
      let r := applyAdminTransition unit sdk_port_id cp.admin_state
        config_old.admin_state config_changed config sde
      (r.1, r.2.1, probe :: trD ++ r.2.2)

/-- The live generation of the manager: the `initialized_` flag and the
seven/eight parallel member maps (`std::map` embedded as sorted
association lists, nested for the per-node port maps). -/
structure ChassisState where
  initialized : Bool := false
  unit_to_node_id : List (Nat × Nat) := []
  node_id_to_unit : List (Nat × Nat) := []
  node_id_to_port_id_to_port_state : List (Nat × List (Nat × PortState)) := []
  node_id_to_port_id_to_time_last_changed : List (Nat × List (Nat × Nat)) := []
  node_id_to_port_id_to_port_config : List (Nat × List (Nat × PortConfig)) := []
  node_id_to_port_id_to_singleton_port_key : List (Nat × List (Nat × PortKey)) := []
  node_id_to_port_id_to_sdk_port_id : List (Nat × List (Nat × Nat)) := []
  node_id_to_sdk_port_id_to_port_id : List (Nat × List (Nat × Nat)) := []
deriving DecidableEq, Repr

/-- The six per-port maps that a push builds fresh (pass 2 seeds them, pass 3
fills the configs). -/
structure PortMaps where
  port_state : List (Nat × List (Nat × PortState)) := []
  time_last_changed : List (Nat × List (Nat × Nat)) := []
  port_config : List (Nat × List (Nat × PortConfig)) := []
  singleton_port_key : List (Nat × List (Nat × PortKey)) := []
  sdk_port_id : List (Nat × List (Nat × Nat)) := []
  sdk_to_port_id : List (Nat × List (Nat × Nat)) := []
deriving DecidableEq, Repr

/-- Pass 1 of `PushChassisConfig` (also the unit-assignment loop of
`VerifyChassisConfig`): units in declaration order, yielding
(unit_to_node_id, node_id_to_unit). -/
def buildUnitMaps (nodes : List Node) : List (Nat × Nat) × List (Nat × Nat) :=
  let r := nodes.foldl
    (fun (acc : Nat × List (Nat × Nat) × List (Nat × Nat)) (node : Node) =>
      (acc.1 + 1, fmInsert acc.2.1 acc.1 node.id, fmInsert acc.2.2 node.id acc.1))
    (0, [], [])
  (r.2.1, r.2.2)

/-- Pass 2 of `PushChassisConfig`: for every desired port, validate its node
reference, seed the default state/timestamp/config/key entries and resolve
the SDK port id through the Device Interface; the first failure aborts. -/
def pass2 (node_id_to_unit : List (Nat × Nat)) (sde : Sde) :
    List SingletonPort → PortMaps → Except Err PortMaps × List SdeCall
  | [], m => (.ok m, [])
  | sp :: rest, m =>
    match fmFind? node_id_to_unit sp.node with
    | none => (.error .unknownNodeId, [])
    | some unit =>
      let key : PortKey := ⟨sp.slot, sp.port, sp.channel⟩
      let m := { m with
        port_state := fmInsert2 m.port_state sp.node sp.id .unknown
        time_last_changed := fmInsert2 m.time_last_changed sp.node sp.id 0
        port_config := fmInsert2 m.port_config sp.node sp.id {}
        singleton_port_key := fmInsert2 m.singleton_port_key sp.node sp.id key }
      let call := SdeCall.getPortIdFromPortKey unit key
      match sde.getPortIdFromPortKey unit key with
      | .error e => (.error e, [call])
      | .ok sdk_port =>
        let m := { m with
          sdk_port_id := fmInsert2 m.sdk_port_id sp.node sp.id sdk_port
          sdk_to_port_id := fmInsert2 m.sdk_to_port_id sp.node sdk_port sp.id }
        let r := pass2 node_id_to_unit sde rest m
        (r.1, call :: r.2)

/-- Pass 3 of `PushChassisConfig` (diff and apply): for every desired port,
look up the previous generation's config; a new port is added, a broken one
(admin_state unknown) is best-effort deleted then re-added, a healthy one
is diffed via `UpdatePortHelper` (a missing speed on a healthy port is an
internal invariant violation).  The helper's out-config is written into the
new config map; the first failure aborts.  (`getD` stands for the map
accesses `node_id_to_unit[...]`, `...[node_id][port_id]` whose keys pass 2
has always inserted.) -/
def pass3 (st_old : ChassisState) (node_id_to_unit : List (Nat × Nat)) (sde : Sde) :
    List SingletonPort → PortMaps → Except Err PortMaps × List SdeCall
  | [], m => (.ok m, [])
  | sp :: rest, m =>
    let node_id := sp.node
    let port_id := sp.id
    let unit := (fmFind? node_id_to_unit node_id).getD 0
    let config_old? := fmFind2? st_old.node_id_to_port_id_to_port_config node_id port_id
    let config := (fmFind2? m.port_config node_id port_id).getD {}
    let sdk_port_id := (fmFind2? m.sdk_port_id node_id port_id).getD 0
    match config_old? with
    | none =>
      let r := AddPortHelper node_id unit sdk_port_id sp config sde
      let m := { m with port_config := fmInsert2 m.port_config node_id port_id r.2.1 }
      match r.1 with
      | .error e => (.error e, r.2.2)
      | .ok _ =>
        let rr := pass3 st_old node_id_to_unit sde rest m
        (rr.1, r.2.2 ++ rr.2)
    | some config_old =>
      if config_old.admin_state = .unknown then
        -- best-effort delete (the DeletePort status is ignored), then re-add
        let preTr :=
          SdeCall.isValidPort unit sdk_port_id ::
            (if sde.isValidPort unit sdk_port_id then
              [SdeCall.deletePort unit sdk_port_id] else [])
        let r := AddPortHelper node_id unit sdk_port_id sp config sde
        let m := { m with port_config := fmInsert2 m.port_config node_id port_id r.2.1 }
        match r.1 with
        | .error e => (.error e, preTr ++ r.2.2)
        | .ok _ =>
          let rr := pass3 st_old node_id_to_unit sde rest m
          (rr.1, preTr ++ r.2.2 ++ rr.2)
      else if config_old.speed_bps = none then
        (.error .speedBpsMissing, [])
      else
        let r := UpdatePortHelper node_id unit sdk_port_id sp config_old sde
        let m := { m with port_config := fmInsert2 m.port_config node_id port_id r.2.1 }
        match r.1 with
        | .error e => (.error e, r.2.2)
        | .ok _ =>
          let rr := pass3 st_old node_id_to_unit sde rest m
          (rr.1, r.2.2 ++ rr.2)

/-- The cleanup pass of `PushChassisConfig` over one previous node's ports:
delete every port absent from the newly built config map; the first
DeletePort failure aborts. -/
def cleanupNodePorts (st_old : ChassisState)
    (new_config : List (Nat × List (Nat × PortConfig))) (sde : Sde) (node_id : Nat) :
    List (Nat × PortConfig) → Except Err Unit × List SdeCall
  | [] => (.ok (), [])
  | (port_id, _) :: rest =>
    if (fmFind2? new_config node_id port_id).isSome then
      cleanupNodePorts st_old new_config sde node_id rest
    else
      let unit := (fmFind? st_old.node_id_to_unit node_id).getD 0
      let sdk_port_id :=
        (fmFind2? st_old.node_id_to_port_id_to_sdk_port_id node_id port_id).getD 0
      let call := SdeCall.deletePort unit sdk_port_id
      match sde.deletePort unit sdk_port_id with
      | .error e => (.error e, [call])
      | .ok _ =>
        let r := cleanupNodePorts st_old new_config sde node_id rest
        (r.1, call :: r.2)

/-- The cleanup pass over all previous nodes. -/
def cleanupOldPorts (st_old : ChassisState)
    (new_config : List (Nat × List (Nat × PortConfig))) (sde : Sde) :
    List (Nat × List (Nat × PortConfig)) → Except Err Unit × List SdeCall
  | [] => (.ok (), [])
  | (node_id, ports) :: rest =>
    match cleanupNodePorts st_old new_config sde node_id ports with
    | (.error e, tr) => (.error e, tr)
    | (.ok _, tr) =>
      let r := cleanupOldPorts st_old new_config sde rest
      (r.1, tr ++ r.2)

/-- `PushChassisConfig`: builds a fresh generation of maps in three passes
plus the cleanup pass, then — only when everything succeeded — swaps all
of them in at once and sets `initialized_`.  On any failure the previous
live generation is returned untouched. -/
def PushChassisConfig (st : ChassisState) (cfg : ChassisConfig) (sde : Sde) :
    Except Err Unit × ChassisState × List SdeCall :=
  let u := buildUnitMaps cfg.nodes
  match pass2 u.2 sde cfg.singleton_ports {} with
  | (.error e, tr) => (.error e, st, tr)
  | (.ok m2, tr2) =>
    match pass3 st u.2 sde cfg.singleton_ports m2 with
    | (.error e, tr3) => (.error e, st, tr2 ++ tr3)
    | (.ok m3, tr3) =>
      match cleanupOldPorts st m3.port_config sde st.node_id_to_port_id_to_port_config with
      | (.error e, trC) => (.error e, st, tr2 ++ tr3 ++ trC)
      | (.ok _, trC) =>
        (.ok (),
         { initialized := true
           unit_to_node_id := u.1
           node_id_to_unit := u.2
           node_id_to_port_id_to_port_state := m3.port_state
           node_id_to_port_id_to_time_last_changed := m3.time_last_changed
           node_id_to_port_id_to_port_config := m3.port_config
           node_id_to_port_id_to_singleton_port_key := m3.singleton_port_key
           node_id_to_port_id_to_sdk_port_id := m3.sdk_port_id
           node_id_to_sdk_port_id_to_port_id := m3.sdk_to_port_id },
         tr2 ++ tr3 ++ trC)

/-- The node-validation loop of `VerifyChassisConfig`: positive slot and id,
no duplicate node id (`gtl::InsertIfNotPresent` with a placeholder value,
embedded as a seen-list since the placeholder is overwritten by the
subsequent unit-assignment loop and never observed). -/
def verifyNodeList : List Node → List Nat → Except Err Unit
  | [], _ => .ok ()
  | node :: rest, seen =>
    if node.slot = 0 then .error (.verifyCheck "no positive slot in node")
    else if node.id = 0 then .error (.verifyCheck "no positive id in node")
    else if seen.contains node.id then .error (.verifyCheck "duplicate node id")
    else verifyNodeList rest (node.id :: seen)

/-- The per-port validation loop of `VerifyChassisConfig`: reserved CPU port
id, positive slot/port/speed, unique (slot, port, channel), valid and known
node reference, port id unique per node. -/
def verifyPortList (node_id_to_unit : List (Nat × Nat)) :
    List SingletonPort → List PortKey → List (Nat × List Nat) → Except Err Unit
  | [], _, _ => .ok ()
  | sp :: rest, keys, port_ids =>
    if sp.id = kCpuPortId then .error (.verifyCheck "reserved CPU port id")
    else if sp.slot = 0 then .error (.verifyCheck "no valid slot in port")
    else if sp.port = 0 then .error (.verifyCheck "no valid port in port")
    else if sp.speed_bps = 0 then .error (.verifyCheck "no valid speed_bps in port")
    else
      let key : PortKey := ⟨sp.slot, sp.port, sp.channel⟩
      if keys.contains key then .error (.verifyCheck "duplicate singleton port key")
      else if sp.node = 0 then .error (.verifyCheck "no valid node id in port")
      else if (fmFind? node_id_to_unit sp.node).isNone then
        .error (.verifyCheck "node id not given to any node")
      else
        let ids := (fmFind? port_ids sp.node).getD []
        if ids.contains sp.id then
          .error (.verifyCheck "duplicate port id for node")
        else
          verifyPortList node_id_to_unit rest (key :: keys)
            (fmInsert port_ids sp.node (sp.id :: ids))

/-- The existence-check loop of `VerifyChassisConfig`: builds the proposed
(node, port) → PortKey map and resolves every key through the Device
Interface; a resolution failure is propagated. -/
def verifyResolve (node_id_to_unit : List (Nat × Nat)) (sde : Sde) :
    List SingletonPort → List (Nat × List (Nat × PortKey)) →
    Except Err (List (Nat × List (Nat × PortKey))) × List SdeCall
  | [], keyMap => (.ok keyMap, [])
  | sp :: rest, keyMap =>
    let key : PortKey := ⟨sp.slot, sp.port, sp.channel⟩
    let keyMap := fmInsert2 keyMap sp.node sp.id key
    match fmFind? node_id_to_unit sp.node with
    | none => (.error (.verifyCheck "node not found for port"), [])
    | some unit =>
      let call := SdeCall.getPortIdFromPortKey unit key
      match sde.getPortIdFromPortKey unit key with
      | .error e => (.error e, [call])
      | .ok _ =>
        let r := verifyResolve node_id_to_unit sde rest keyMap
        (r.1, call :: r.2)

/-- Everything `VerifyChassisConfig` does before the reboot-required
detection: structural checks, platform check, node and port validation and
the backend existence check; yields the proposed (node, port) → PortKey
map on success. -/
def verifyBasic (cfg : ChassisConfig) (sde : Sde) :
    Except Err (List (Nat × List (Nat × PortKey))) × List SdeCall :=
  if cfg.trunk_ports_size ≠ 0 then (.error (.verifyCheck "trunk ports unsupported"), [])
  else if cfg.port_groups_size ≠ 0 then
    (.error (.verifyCheck "port groups unsupported"), [])
  else if cfg.nodes.length = 0 then (.error (.verifyCheck "at least one node"), [])
  else
    match cfg.chassis_platform with
    | none => (.error (.verifyCheck "chassis message with platform"), [])
    | some plt =>
      if plt = 0 then (.error (.verifyCheck "chassis message with platform"), [])
      else if ¬ kSupportedPlatforms.contains plt then (.error .unsupportedPlatform, [])
      else
        match verifyNodeList cfg.nodes [] with
        | .error e => (.error e, [])
        | .ok _ =>
          let u := buildUnitMaps cfg.nodes
          match verifyPortList u.2 cfg.singleton_ports [] [] with
          | .error e => (.error e, [])
          | .ok _ => verifyResolve u.2 sde cfg.singleton_ports []

/-- `VerifyChassisConfig`: validation without mutation, then — only when the
manager is already initialized — reboot-required detection: a different
(node, port) → PortKey map, or a different node_id → unit map, is reported
as reboot-required. -/
def VerifyChassisConfig (st : ChassisState) (cfg : ChassisConfig) (sde : Sde) :
    Except Err Unit × List SdeCall :=
  match verifyBasic cfg sde with
  | (.error e, tr) => (.error e, tr)
  | (.ok keyMap, tr) =>
    if st.initialized then
      if keyMap ≠ st.node_id_to_port_id_to_singleton_port_key then
        (.error .rebootPortLayout, tr)
      else if (buildUnitMaps cfg.nodes).2 ≠ st.node_id_to_unit then
        (.error .rebootNodeUnit, tr)
      else (.ok (), tr)
    else (.ok (), tr)

/-- `GetPortConfig`: a guarded lookup into the config map.  NOTE: unlike the
other getters the source has no `initialized_` check here; on an
uninitialized manager the maps are empty and the node lookup fails. -/
def GetPortConfig (st : ChassisState) (node_id port_id : Nat) : Except Err PortConfig :=
  match fmFind? st.node_id_to_port_id_to_port_config node_id with
  | none => .error .nodeNotKnown
  | some inner =>
    match fmFind? inner port_id with
    | none => .error .portNotKnown
    | some c => .ok c

/-- `GetSdkPortId`: not-initialized guard, then guarded lookups. -/
def GetSdkPortId (st : ChassisState) (node_id port_id : Nat) : Except Err Nat :=
  if st.initialized = false then .error .notInitialized
  else
    match fmFind? st.node_id_to_port_id_to_sdk_port_id node_id with
    | none => .error .nodeNotKnown
    | some inner =>
      match fmFind? inner port_id with
      | none => .error .portNotKnown
      | some v => .ok v

/-- `GetUnitFromNodeId`: not-initialized guard, then a guarded lookup. -/
def GetUnitFromNodeId (st : ChassisState) (node_id : Nat) : Except Err Nat :=
  if st.initialized = false then .error .notInitialized
  else
    match fmFind? st.node_id_to_unit node_id with
    | none => .error .nodeNotKnown
    | some u => .ok u

/-- `GetPortTimeLastChanged`: not-initialized guard, then two RET_CHECKed
`count()` lookups (both failures are missing-key checks). -/
def GetPortTimeLastChanged (st : ChassisState) (node_id port_id : Nat) : Except Err Nat :=
  if st.initialized = false then .error .notInitialized
  else
    match fmFind? st.node_id_to_port_id_to_time_last_changed node_id with
    | none => .error .nodeNotKnown
    | some inner =>
      match fmFind? inner port_id with
      | none => .error .portNotKnown
      | some t => .ok t

/-- `GetPortCounters`: not-initialized guard, unit and SDK id lookups, then
the live backend counter read. -/
def GetPortCounters (st : ChassisState) (node_id port_id : Nat) (sde : Sde) :
    Except Err Nat × List SdeCall :=
  if st.initialized = false then (.error .notInitialized, [])
  else
    match GetUnitFromNodeId st node_id with
    | .error e => (.error e, [])
    | .ok unit =>
      match GetSdkPortId st node_id port_id with
      | .error e => (.error e, [])
      | .ok sdk_port_id =>
        (sde.getPortCounters unit sdk_port_id, [.getPortCounters unit sdk_port_id])

/-- The `replay_one_port` lambda of `ReplayPortsConfig`: skips a port whose
stored admin_state is unknown, demands speed and FEC on a configured one,
then re-issues create + autoneg/loopback (+ the commented-out MTU and
EnablePort steps as cached-config commits) into a freshly
default-constructed `config_new`. -/
def replayOnePort (st : ChassisState) (node_id unit port_id : Nat)
    (config : PortConfig) (sde : Sde) : Except Err Unit × PortConfig × List SdeCall :=
  if config.admin_state = .unknown then (.ok (), {}, [])
  else if config.speed_bps = none then (.error .speedBpsMissing, {}, [])
  else if config.fec_mode = none then (.error .fecModeMissing, {}, [])
  else
    match GetSdkPortId st node_id port_id with
    | .error e => (.error e, {}, [])
    | .ok sdk_port_id =>
      let speed := config.speed_bps.getD 0
      let fec := config.fec_mode.getD 0
      let call := SdeCall.addPortSimple unit sdk_port_id speed fec
      match sde.addPortSimple unit sdk_port_id speed fec with
      | .error e => (.error e, {}, [call])
      | .ok _ =>
        let config_new : PortConfig :=
          { speed_bps := some speed, admin_state := .disabled, fec_mode := some fec }
        let config_new :=
          match config.mtu with
          | some m => { config_new with mtu := some m }
          | none => config_new
        match (match config.autoneg with
               | some a =>
                 (sde.setPortAutonegPolicy unit sdk_port_id a,
                  [SdeCall.setPortAutonegPolicy unit sdk_port_id a], some a)
               | none => (.ok (), [], none)) with
        | (.error e, tr2, _) => (.error e, config_new, call :: tr2)
        | (.ok _, tr2, an?) =>
          let config_new :=
            match an? with
            | some a => { config_new with autoneg := some a }
            | none => config_new
          match (match config.loopback_mode with
                 | some lb =>
                   (sde.setPortLoopbackMode unit sdk_port_id lb,
                    [SdeCall.setPortLoopbackMode unit sdk_port_id lb], some lb)
                 | none => (.ok (), [], none)) with
          | (.error e, tr3, _) => (.error e, config_new, call :: tr2 ++ tr3)
          | (.ok _, tr3, lb?) =>
            let config_new :=
              match lb? with
              | some lb => { config_new with loopback_mode := some lb }
              | none => config_new
            let config_new :=
              if config.admin_state = .enabled then
                { config_new with admin_state := .enabled }
              else config_new
            (.ok (), config_new, call :: tr2 ++ tr3)

/-- `ReplayPortsConfig`: after the not-initialized and node checks, reset the
node's cached port states and timestamps, then attempt to replay every port
of the node, accumulating per-port errors (`APPEND_STATUS_IF_ERROR`,
embedded as the list of collected errors — empty means OK) and
unconditionally overwriting each cached `PortConfig` with that port's
`config_new`.  `replayResetState` is the initial reset of the node's cached
port states and timestamps to unknown/epoch. -/
def replayResetState (st : ChassisState) (node_id : Nat) : ChassisState :=
  { st with
    node_id_to_port_id_to_port_state :=
      fmInsert st.node_id_to_port_id_to_port_state node_id
        (((fmFind? st.node_id_to_port_id_to_port_state node_id).getD []).map
          (fun p => (p.1, PortState.unknown)))
    node_id_to_port_id_to_time_last_changed :=
      fmInsert st.node_id_to_port_id_to_time_last_changed node_id
        (((fmFind? st.node_id_to_port_id_to_time_last_changed node_id).getD []).map
          (fun p => (p.1, 0))) }

/-- `ReplayPortsConfig` proper; see the comment on `replayResetState`. -/
def ReplayPortsConfig (st : ChassisState) (node_id : Nat) (sde : Sde) :
    List Err × ChassisState × List SdeCall :=
  if st.initialized = false then ([.notInitialized], st, [])
  else
    match GetUnitFromNodeId st node_id with
    | .error e => ([e], st, [])
    | .ok unit =>
      let st := replayResetState st node_id
      let entries := (fmFind? st.node_id_to_port_id_to_port_config node_id).getD []
      let results := entries.map
        (fun p => (p.1, replayOnePort st node_id unit p.1 p.2 sde))
      let errs := results.filterMap (fun r =>
        match r.2.1 with
        | .error e => some e
        | .ok _ => none)
      let newEntries := results.map (fun r => (r.1, r.2.2.1))
      let tr := results.flatMap (fun r => r.2.2.2)
      (errs,
       { st with node_id_to_port_id_to_port_config :=
           fmInsert st.node_id_to_port_id_to_port_config node_id newEntries },
       tr)

/-- The relation between a desired `SingletonPort` and the cached
`PortConfig` that a successful `AddPortHelper`/`UpdatePortHelper` run for
it leaves behind, as far as the next push's diff is concerned (the mtu
clause holds whenever the desired mtu is nonzero; a zero desired mtu is
recorded as `kDefaultMtu` by `AddPortHelper`, which is exactly the C2
counterexample). -/
def Matches (sp : SingletonPort) (c : PortConfig) : Prop :=
  c.speed_bps = some sp.speed_bps ∧
  c.fec_mode = some sp.config_params.fec_mode ∧
  c.mtu = some sp.config_params.mtu ∧
  c.autoneg = some sp.config_params.autoneg ∧
  c.loopback_mode = some sp.config_params.loopback_mode ∧
  c.admin_state ≠ .unknown ∧
  (sp.config_params.admin_state = .disabled ∨ sp.config_params.admin_state = .enabled) ∧
  (sp.config_params.admin_state = .disabled → c.admin_state = .disabled)

/-- The aggregated `config_changed` flag that the field-delta pass of
`UpdatePortHelper` computes: true iff the desired mtu, autoneg or loopback
differs from the applied config (each comparison being the source's
plain-value-vs-optional inequality). -/
def deltaChanged (cp : ConfigParams) (cOld : PortConfig) : Bool :=
  decide (some cp.mtu ≠ cOld.mtu) || decide (some cp.autoneg ≠ cOld.autoneg) ||
    decide (some cp.loopback_mode ≠ cOld.loopback_mode)

/-- Strict-sortedness of an embedded map (holds for every map built from the
empty one by `fmInsert`); it makes list membership and lookup agree. -/
def FmWf {β : Type} (m : List (Nat × β)) : Prop :=
  m.Pairwise (fun a b => a.1 < b.1)

/-- Well-formedness of a nested map: the outer list and every inner list are
strictly sorted. -/
def FmWf2 {β : Type} (m : List (Nat × List (Nat × β))) : Prop :=
  FmWf m ∧ ∀ e ∈ m, FmWf e.2

/-- A Device Interface oracle on which every operation succeeds (SDK port ids
resolve to the `port` member of the key). -/
def sdeOk : Sde := {
  getPortIdFromPortKey := fun _ k => .ok k.port
  isValidPort := fun _ _ => true
  addPort := fun _ _ _ _ _ => .ok ()
  addPortSimple := fun _ _ _ _ => .ok ()
  deletePort := fun _ _ => .ok ()
  disablePort := fun _ _ => .ok ()
  setPortAutonegPolicy := fun _ _ _ => .ok ()
  setPortLoopbackMode := fun _ _ _ => .ok ()
  getPortCounters := fun _ _ => .ok 0 }

/-- A port whose config leaves mtu unset (proto default 0) and requests the
enabled admin state — the C2 counterexample port. -/
def spC2 : SingletonPort :=
  { id := 5, slot := 1, port := 1, channel := 0, node := 1, speed_bps := 10,
    config_params := { admin_state := .enabled } }

/-- A one-node one-port config around `spC2`. -/
def cfgC2 : ChassisConfig :=
  { nodes := [{ id := 1, slot := 1 }], singleton_ports := [spC2],
    chassis_platform := some 1 }

/-- The live generation after successfully pushing `cfgC2` onto an empty
manager through the all-ok oracle. -/
def st1C2 : ChassisState := (PushChassisConfig {} cfgC2 sdeOk).2.1

/-- Like `spC2` but with an explicit nonzero mtu, so that the identical
re-push really is a no-op. -/
def spC2m : SingletonPort :=
  { id := 5, slot := 1, port := 1, channel := 0, node := 1, speed_bps := 10,
    config_params := { admin_state := .enabled, mtu := 100 } }

/-- A one-node one-port config around `spC2m`. -/
def cfgC2m : ChassisConfig :=
  { nodes := [{ id := 1, slot := 1 }], singleton_ports := [spC2m],
    chassis_platform := some 1 }

/-- The live generation after successfully pushing `cfgC2m` onto an empty
manager through the all-ok oracle. -/
def st1C2m : ChassisState := (PushChassisConfig {} cfgC2m sdeOk).2.1

/-- A second port, so that `cfgC3` changes the port layout relative to
`st1C2`. -/
def spC3 : SingletonPort :=
  { id := 6, slot := 1, port := 2, channel := 0, node := 1, speed_bps := 10,
    config_params := { admin_state := .enabled, mtu := 100 } }

/-- `cfgC2` plus one extra port: a port-layout change for `st1C2`. -/
def cfgC3 : ChassisConfig := { cfgC2 with singleton_ports := [spC2, spC3] }

/-- A desired port requesting a new speed (20) for the speed-change
scenario. -/
def spC4 : SingletonPort :=
  { id := 5, slot := 1, port := 1, node := 1, speed_bps := 20,
    config_params := { admin_state := .enabled, mtu := 100 } }

/-- The healthy previously applied config (speed 10) for the speed-change
scenario. -/
def cOldC4 : PortConfig :=
  { admin_state := .enabled, speed_bps := some 10, fec_mode := some 0,
    mtu := some 100, autoneg := some .unknown, loopback_mode := some 0 }

/-- A healthy previously applied config for the FEC-change scenario. -/
def cOld6 : PortConfig :=
  { admin_state := .enabled, speed_bps := some 10, fec_mode := some 0,
    mtu := some 1500, autoneg := some .unknown, loopback_mode := some 0 }

/-- A desired port differing from `cOld6` only in fec_mode. -/
def spC6 : SingletonPort :=
  { id := 5, slot := 1, port := 1, node := 1, speed_bps := 10,
    config_params := { admin_state := .enabled, fec_mode := 1 } }

/-- An oracle on which SDK port id resolution fails. -/
def sdeResolveFail : Sde :=
  { sdeOk with getPortIdFromPortKey := fun _ _ => .error (.device "resolve") }

/-- The proposed (node, port) → PortKey map that `verifyBasic` builds for
`cfgC3`. -/
def kmC3 : List (Nat × List (Nat × PortKey)) :=
  [(1, [(5, ⟨1, 1, 0⟩), (6, ⟨1, 2, 0⟩)])]

/-- An oracle on which only SetPortAutonegPolicy fails. -/
def sdeAnFail : Sde :=
  { sdeOk with setPortAutonegPolicy := fun _ _ _ => .error (.device "autoneg") }

/-- A cached config with an engaged autoneg, so that its replay reaches the
SetPortAutonegPolicy step after a successful AddPort. -/
def cfg10 : PortConfig :=
  { admin_state := .enabled, speed_bps := some 10, fec_mode := some 0,
    autoneg := some .yes }

/-- A desired port requesting the enabled admin state with no field deltas
against `cOldW5`. -/
def spW5 : SingletonPort :=
  { id := 5, slot := 1, port := 1, node := 1, speed_bps := 10,
    config_params := { admin_state := .enabled, mtu := 100 } }

/-- A healthy applied config currently disabled, otherwise identical to what
`spW5` requests: the (disabled → enabled, no change) admin-matrix cell. -/
def cOldW5 : PortConfig :=
  { admin_state := .disabled, speed_bps := some 10, fec_mode := some 0,
    mtu := some 100, autoneg := some .unknown, loopback_mode := some 0 }

/-- A healthy cached config for the replay scenarios (configured, disabled). -/
def cfgC7ok : PortConfig :=
  { admin_state := .disabled, speed_bps := some 10, fec_mode := some 0 }

/-- An initialized generation with two cached ports: port 5 was never
configured (admin unknown — skipped by replay), port 6 is healthy. -/
def stC7 : ChassisState :=
  { initialized := true, unit_to_node_id := [(0, 1)], node_id_to_unit := [(1, 0)],
    node_id_to_port_id_to_port_state := [(1, [(5, .unknown), (6, .up)])],
    node_id_to_port_id_to_time_last_changed := [(1, [(5, 0), (6, 9)])],
    node_id_to_port_id_to_port_config := [(1, [(5, {}), (6, cfgC7ok)])],
    node_id_to_port_id_to_singleton_port_key :=
      [(1, [(5, ⟨1, 1, 0⟩), (6, ⟨1, 2, 0⟩)])],
    node_id_to_port_id_to_sdk_port_id := [(1, [(5, 1), (6, 2)])],
    node_id_to_sdk_port_id_to_port_id := [(1, [(1, 5), (2, 6)])] }

/-- An initialized one-node generation holding `cfg10` at port 5. -/
def stC10 : ChassisState :=
  { initialized := true, unit_to_node_id := [(0, 1)], node_id_to_unit := [(1, 0)],
    node_id_to_port_id_to_port_state := [(1, [(5, .up)])],
    node_id_to_port_id_to_time_last_changed := [(1, [(5, 9)])],
    node_id_to_port_id_to_port_config := [(1, [(5, cfg10)])],
    node_id_to_port_id_to_singleton_port_key := [(1, [(5, ⟨1, 1, 0⟩)])],
    node_id_to_port_id_to_sdk_port_id := [(1, [(5, 1)])],
    node_id_to_sdk_port_id_to_port_id := [(1, [(1, 5)])] }

theorem fmFind?_fmInsert_self {β : Type} (m : List (Nat × β)) (k : Nat) (v : β) :
    fmFind? (fmInsert m k v) k = some v := by
  induction m with
  | nil => simp [fmInsert, fmFind?]
  | cons hd tl ih =>
    obtain ⟨k', v'⟩ := hd
    by_cases h1 : k < k'
    · simp [fmInsert, h1, fmFind?]
    · by_cases h2 : k = k'
      · simp [fmInsert, h1, h2, fmFind?]
      · simp [fmInsert, h1, h2, fmFind?, ih]

theorem fmFind?_fmInsert_ne {β : Type} (m : List (Nat × β)) (k k' : Nat) (v : β)
    (h : k ≠ k') : fmFind? (fmInsert m k' v) k = fmFind? m k := by
  induction m with
  | nil => simp [fmInsert, fmFind?, h]
  | cons hd tl ih =>
    obtain ⟨k0, v0⟩ := hd
    by_cases h1 : k' < k0
    · simp [fmInsert, h1, fmFind?, h]
    · by_cases h2 : k' = k0
      · subst h2
        simp [fmInsert, h1, fmFind?, h]
      · by_cases h3 : k = k0
        · simp [fmInsert, h1, h2, fmFind?, h3]
        · simp [fmInsert, h1, h2, fmFind?, h3, ih]

theorem fmFind2?_fmInsert2_self {β : Type} (m : List (Nat × List (Nat × β)))
    (n p : Nat) (v : β) : fmFind2? (fmInsert2 m n p v) n p = some v := by
  simp [fmFind2?, fmInsert2, fmFind?_fmInsert_self]

theorem fmFind2?_fmInsert2_ne {β : Type} (m : List (Nat × List (Nat × β)))
    (n p n' p' : Nat) (v : β) (h : (n, p) ≠ (n', p')) :
    fmFind2? (fmInsert2 m n' p' v) n p = fmFind2? m n p := by
  by_cases hn : n = n'
  · subst hn
    have hp : p ≠ p' := by
      intro hp
      exact h (by rw [hp])
    unfold fmFind2? fmInsert2
    rw [fmFind?_fmInsert_self]
    cases hfound : fmFind? m n with
    | none => simp [hfound, fmFind?, fmInsert, hp]
    | some inner => simp [hfound, fmFind?_fmInsert_ne _ _ _ _ hp]
  · unfold fmFind2? fmInsert2
    rw [fmFind?_fmInsert_ne _ _ _ _ hn]

theorem mem_fmInsert {β : Type} {m : List (Nat × β)} {k : Nat} {v : β}
    {e : Nat × β} (h : e ∈ fmInsert m k v) : e = (k, v) ∨ e ∈ m := by
  induction m with
  | nil => simpa [fmInsert] using h
  | cons hd tl ih =>
    obtain ⟨k0, v0⟩ := hd
    by_cases h1 : k < k0
    · simp [fmInsert, h1] at h
      rcases h with h | h | h
      · exact Or.inl h
      · exact Or.inr (by simp [h])
      · exact Or.inr (by simp [h])
    · by_cases h2 : k = k0
      · subst h2
        simp [fmInsert, h1] at h
        rcases h with h | h
        · exact Or.inl (by simp [h])
        · exact Or.inr (by simp [h])
      · simp [fmInsert, h1, h2] at h
        rcases h with h | h
        · exact Or.inr (by simp [h])
        · rcases ih h with h' | h'
          · exact Or.inl h'
          · exact Or.inr (by simp [h'])

theorem mem_of_fmFind? {β : Type} {m : List (Nat × β)} {k : Nat} {v : β}
    (h : fmFind? m k = some v) : (k, v) ∈ m := by
  induction m with
  | nil => simp [fmFind?] at h
  | cons hd tl ih =>
    obtain ⟨k0, v0⟩ := hd
    by_cases h1 : k = k0
    · subst h1
      simp [fmFind?] at h
      simp [h]
    · simp [fmFind?, h1] at h
      exact List.mem_cons_of_mem _ (ih h)

theorem FmWf.insert {β : Type} {m : List (Nat × β)} (hw : FmWf m) (k : Nat) (v : β) :
    FmWf (fmInsert m k v) := by
  induction m with
  | nil => simp [fmInsert, FmWf]
  | cons hd tl ih =>
    obtain ⟨k0, v0⟩ := hd
    rw [FmWf, List.pairwise_cons] at hw
    by_cases h1 : k < k0
    · rw [FmWf, fmInsert]
      simp only [h1, if_pos]
      constructor
      · intro e he
        rcases List.mem_cons.1 he with he' | he'
        · simp [he', h1]
        · exact lt_trans h1 (hw.1 e he')
      · exact List.pairwise_cons.2 hw
    · by_cases h2 : k = k0
      · subst h2
        rw [FmWf, fmInsert]
        simp only [h1, if_neg, if_pos, Nat.lt_irrefl, ite_true, not_false_iff]
        exact List.pairwise_cons.2 ⟨hw.1, hw.2⟩
      · rw [FmWf, fmInsert]
        simp only [h1, h2, if_neg, not_false_iff, ite_false]
        refine List.pairwise_cons.2 ⟨?_, ih hw.2⟩
        intro e he
        rcases mem_fmInsert he with he' | he'
        · subst he'
          exact Nat.lt_of_le_of_ne (Nat.le_of_not_lt h1) (Ne.symm h2)
        · exact hw.1 e he'

theorem FmWf.find?_of_mem {β : Type} {m : List (Nat × β)} (hw : FmWf m) {k : Nat}
    {v : β} (h : (k, v) ∈ m) : fmFind? m k = some v := by
  induction m with
  | nil => simp at h
  | cons hd tl ih =>
    obtain ⟨k0, v0⟩ := hd
    rw [FmWf, List.pairwise_cons] at hw
    rcases List.mem_cons.1 h with h' | h'
    · cases h'
      simp [fmFind?]
    · have hk : k ≠ k0 := by
        intro hk
        subst hk
        exact absurd (hw.1 _ h') (Nat.lt_irrefl k)
      simp [fmFind?, hk, ih hw.2 h']

theorem FmWf2.insert2 {β : Type} {m : List (Nat × List (Nat × β))} (hw : FmWf2 m)
    (n p : Nat) (v : β) : FmWf2 (fmInsert2 m n p v) := by
  obtain ⟨hwo, hwi⟩ := hw
  constructor
  · exact hwo.insert n _
  · intro e he
    rcases mem_fmInsert he with he' | he'
    · subst he'
      have hinner : FmWf ((fmFind? m n).getD []) := by
        cases hfound : fmFind? m n with
        | none => simp [FmWf]
        | some inner => simpa using hwi _ (mem_of_fmFind? hfound)
      exact hinner.insert p v
    · exact hwi e he'

theorem FmWf2.find2?_of_mem {β : Type} {m : List (Nat × List (Nat × β))}
    (hw : FmWf2 m) {n p : Nat} {inner : List (Nat × β)} {c : β}
    (hmem : (n, inner) ∈ m) (hp : (p, c) ∈ inner) : fmFind2? m n p = some c := by
  have h1 : fmFind? m n = some inner := hw.1.find?_of_mem hmem
  have h2 : fmFind? inner p = some c := (hw.2 _ hmem).find?_of_mem hp
  simp [fmFind2?, h1, h2]

theorem addPortHelper_ok_fields {node_id unit sdk_port_id : Nat} {sp : SingletonPort}
    {c0 c : PortConfig} {tr : List SdeCall} {sde : Sde}
    (h : AddPortHelper node_id unit sdk_port_id sp c0 sde = (.ok (), c, tr)) :
    c.speed_bps = some sp.speed_bps ∧
    c.fec_mode = some sp.config_params.fec_mode ∧
    c.mtu = some (if sp.config_params.mtu ≠ 0 then sp.config_params.mtu
                  else kDefaultMtu) ∧
    c.autoneg = some sp.config_params.autoneg ∧
    c.loopback_mode = some sp.config_params.loopback_mode ∧
    c.admin_state =
      (if sp.config_params.admin_state = .enabled then .enabled else .disabled) ∧
    (sp.config_params.admin_state = .disabled ∨
     sp.config_params.admin_state = .enabled) := by
  by_cases hu : sp.config_params.admin_state = .unknown
  · simp [AddPortHelper, hu] at h
  by_cases hd : sp.config_params.admin_state = .diag
  · simp [AddPortHelper, hu, hd] at h
  have hvalid : sp.config_params.admin_state = .disabled ∨
      sp.config_params.admin_state = .enabled := by
    cases hadm : sp.config_params.admin_state
    · exact absurd hadm hu
    · exact Or.inl rfl
    · exact Or.inr rfl
    · exact absurd hadm hd
  simp only [AddPortHelper, hu, hd, if_false, ite_false] at h
  split at h
  · simp at h
  · split at h
    · simp at h
    · split at h
      · simp at h
      · split at h
        · simp at h
        · simp only [Prod.mk.injEq] at h
          obtain ⟨-, hc, -⟩ := h
          subst hc
          rcases hvalid with hv | hv <;> simp [hv]

theorem updateApplyDeltas_all_ok (unit sdk_port_id : Nat) (cp : ConfigParams)
    (cOld c0 : PortConfig) (sde : Sde)
    (han : sde.setPortAutonegPolicy unit sdk_port_id cp.autoneg = .ok ())
    (hlb : sde.setPortLoopbackMode unit sdk_port_id cp.loopback_mode = .ok ()) :
    updateApplyDeltas unit sdk_port_id cp cOld c0 sde =
      (.ok (),
       { c0 with
         mtu := if some cp.mtu ≠ cOld.mtu then some cp.mtu else c0.mtu
         autoneg :=
           if some cp.autoneg ≠ cOld.autoneg then some cp.autoneg else c0.autoneg
         loopback_mode :=
           if some cp.loopback_mode ≠ cOld.loopback_mode then some cp.loopback_mode
           else c0.loopback_mode },
       (decide (some cp.mtu ≠ cOld.mtu) || decide (some cp.autoneg ≠ cOld.autoneg) ||
        decide (some cp.loopback_mode ≠ cOld.loopback_mode)),
       (if some cp.autoneg ≠ cOld.autoneg then
          [SdeCall.setPortAutonegPolicy unit sdk_port_id cp.autoneg] else []) ++
       (if some cp.loopback_mode ≠ cOld.loopback_mode then
          [SdeCall.setPortLoopbackMode unit sdk_port_id cp.loopback_mode] else [])) := by
  by_cases h1 : some cp.mtu ≠ cOld.mtu <;>
    by_cases h2 : some cp.autoneg ≠ cOld.autoneg <;>
      by_cases h3 : some cp.loopback_mode ≠ cOld.loopback_mode <;>
        simp [updateApplyDeltas, h1, h2, h3, han, hlb]

theorem updateApplyDeltas_ok_fields {unit sdk_port_id : Nat} {cp : ConfigParams}
    {cOld c0 c' : PortConfig} {ch : Bool} {tr : List SdeCall} {sde : Sde}
    (h : updateApplyDeltas unit sdk_port_id cp cOld c0 sde = (.ok (), c', ch, tr)) :
    c'.speed_bps = c0.speed_bps ∧ c'.fec_mode = c0.fec_mode ∧
    c'.admin_state = c0.admin_state ∧
    c'.mtu = (if some cp.mtu ≠ cOld.mtu then some cp.mtu else c0.mtu) ∧
    c'.autoneg =
      (if some cp.autoneg ≠ cOld.autoneg then some cp.autoneg else c0.autoneg) ∧
    c'.loopback_mode =
      (if some cp.loopback_mode ≠ cOld.loopback_mode then some cp.loopback_mode
       else c0.loopback_mode) := by
  rcases han : sde.setPortAutonegPolicy unit sdk_port_id cp.autoneg with eA | uA <;>
    rcases hlb : sde.setPortLoopbackMode unit sdk_port_id cp.loopback_mode with eL | uL <;>
      by_cases h1 : some cp.mtu ≠ cOld.mtu <;>
        by_cases h2 : some cp.autoneg ≠ cOld.autoneg <;>
          by_cases h3 : some cp.loopback_mode ≠ cOld.loopback_mode <;>
            · simp [updateApplyDeltas, h1, h2, h3, han, hlb] at h
              try
                obtain ⟨hc, -, -⟩ := h
                subst hc
                simp [h1, h2, h3]

theorem applyAdminTransition_all_ok (unit sdk_port_id : Nat) (d old : AdminState)
    (ch : Bool) (config : PortConfig) (sde : Sde)
    (hdis : sde.disablePort unit sdk_port_id = .ok ()) :
    applyAdminTransition unit sdk_port_id d old ch config sde =
      (.ok (),
       { config with admin_state :=
           if (adminTransition d old ch).2 then .enabled
           else if (adminTransition d old ch).1 then .disabled
           else config.admin_state },
       if (adminTransition d old ch).1 then [SdeCall.disablePort unit sdk_port_id]
       else []) := by
  by_cases h1 : (adminTransition d old ch).1 <;>
    by_cases h2 : (adminTransition d old ch).2 <;>
      simp [applyAdminTransition, h1, h2, hdis]

theorem applyAdminTransition_ok_admin {unit sdk_port_id : Nat} {d old : AdminState}
    {ch : Bool} {config c' : PortConfig} {tr : List SdeCall} {sde : Sde}
    (h : applyAdminTransition unit sdk_port_id d old ch config sde = (.ok (), c', tr)) :
    c' = { config with admin_state :=
             if (adminTransition d old ch).2 then .enabled
             else if (adminTransition d old ch).1 then .disabled
             else config.admin_state } := by
  rcases hdis : sde.disablePort unit sdk_port_id with eD | uD <;>
    by_cases h1 : (adminTransition d old ch).1 <;>
      by_cases h2 : (adminTransition d old ch).2 <;>
        · simp [applyAdminTransition, h1, h2, hdis] at h
          try
            obtain ⟨hc, -⟩ := h
            subst hc
            simp [h1, h2]

theorem adminTransition_fst_disabled (old : AdminState) (ch : Bool) :
    adminTransition .disabled old ch = (decide (old ≠ .disabled), false) := by
  simp [adminTransition]

theorem adminTransition_fst_enabled (old : AdminState) (ch : Bool) :
    adminTransition .enabled old ch =
      (ch && decide (old ≠ .disabled),
       (ch && decide (old ≠ .disabled)) || decide (old = .disabled)) := by
  simp [adminTransition]

theorem updateApplyDeltas_nochange (unit sdk_port_id : Nat) (cp : ConfigParams)
    (cOld c0 : PortConfig) (sde : Sde)
    (hm : cOld.mtu = some cp.mtu) (ha : cOld.autoneg = some cp.autoneg)
    (hl : cOld.loopback_mode = some cp.loopback_mode) :
    updateApplyDeltas unit sdk_port_id cp cOld c0 sde = (.ok (), c0, false, []) := by
  simp [updateApplyDeltas, hm, ha, hl]

theorem applyAdminTransition_no_disable {d old : AdminState} {ch : Bool}
    (unit sdk_port_id : Nat) (config : PortConfig) (sde : Sde)
    (ht : (adminTransition d old ch).1 = false) :
    applyAdminTransition unit sdk_port_id d old ch config sde =
      (.ok (),
       if (adminTransition d old ch).2 then { config with admin_state := .enabled }
       else config, []) := by
  by_cases h2 : (adminTransition d old ch).2 <;>
    simp [applyAdminTransition, ht, h2]

theorem addPortHelper_ok_matches {node_id unit sdk_port_id : Nat}
    {sp : SingletonPort} {c0 c : PortConfig} {tr : List SdeCall} {sde : Sde}
    (h : AddPortHelper node_id unit sdk_port_id sp c0 sde = (.ok (), c, tr))
    (hmtu : sp.config_params.mtu ≠ 0) : Matches sp c := by
  obtain ⟨h1, h2, h3, h4, h5, h6, h7⟩ := addPortHelper_ok_fields h
  refine ⟨h1, h2, ?_, h4, h5, ?_, h7, ?_⟩
  · simpa [hmtu] using h3
  · rw [h6]
    rcases h7 with hv | hv <;> simp [hv]
  · intro hd
    rw [h6, hd]
    simp

theorem applyAdminTransition_fst_ok_snd {unit sdk_port_id : Nat}
    {d old : AdminState} {ch : Bool} {config : PortConfig} {sde : Sde}
    (h : (applyAdminTransition unit sdk_port_id d old ch config sde).1 = .ok ()) :
    (applyAdminTransition unit sdk_port_id d old ch config sde).2.1 =
      { config with admin_state :=
          if (adminTransition d old ch).2 then .enabled
          else if (adminTransition d old ch).1 then .disabled
          else config.admin_state } := by
  rcases hdis : sde.disablePort unit sdk_port_id with eD | uD <;>
    by_cases h1 : (adminTransition d old ch).1 <;>
      by_cases h2 : (adminTransition d old ch).2 <;>
        simp_all [applyAdminTransition, h1, h2, hdis]

theorem updatePortHelper_ok_matches {node_id unit sdk_port_id : Nat}
    {sp : SingletonPort} {cOld c : PortConfig} {tr : List SdeCall} {sde : Sde}
    (h : UpdatePortHelper node_id unit sdk_port_id sp cOld sde = (.ok (), c, tr))
    (hmtu : sp.config_params.mtu ≠ 0) (hOldAdm : cOld.admin_state ≠ .unknown) :
    Matches sp c := by
  cases hv : sde.isValidPort unit sdk_port_id with
  | false => simp [UpdatePortHelper, hv] at h
  | true =>
    by_cases hs : some sp.speed_bps ≠ cOld.speed_bps
    · -- speed change: ok only through a successful re-add
      rcases hdis : sde.disablePort unit sdk_port_id with eD | uD
      · simp [UpdatePortHelper, hv, hs, hdis] at h
      rcases hdel : sde.deletePort unit sdk_port_id with eL | uL
      · simp [UpdatePortHelper, hv, hs, hdis, hdel] at h
      rcases hA : AddPortHelper node_id unit sdk_port_id sp cOld sde with ⟨ra, c1, trA⟩
      cases ra with
      | error eA => simp [UpdatePortHelper, hv, hs, hdis, hdel, hA] at h
      | ok uA =>
        cases uA
        simp [UpdatePortHelper, hv, hs, hdis, hdel, hA] at h
        obtain ⟨hc, -⟩ := h
        exact hc ▸ addPortHelper_ok_matches hA hmtu
    · -- no speed change
      by_cases hf : some sp.config_params.fec_mode ≠ cOld.fec_mode
      · simp [UpdatePortHelper, hv, hs, hf] at h
      by_cases hu : sp.config_params.admin_state = .unknown
      · simp [UpdatePortHelper, hv, hs, hf, hu] at h
      by_cases hdg : sp.config_params.admin_state = .diag
      · simp [UpdatePortHelper, hv, hs, hf, hu, hdg] at h
      have hvalid : sp.config_params.admin_state = .disabled ∨
          sp.config_params.admin_state = .enabled := by
        cases hadm : sp.config_params.admin_state
        · exact absurd hadm hu
        · exact Or.inl rfl
        · exact Or.inr rfl
        · exact absurd hadm hdg
      rcases hD : updateApplyDeltas unit sdk_port_id sp.config_params cOld cOld sde
        with ⟨rD, cD, chD, trD⟩
      cases rD with
      | error eD => simp [UpdatePortHelper, hv, hs, hf, hu, hdg, hD] at h
      | ok uD =>
        cases uD
        simp [UpdatePortHelper, hv, hs, hf, hu, hdg, hD] at h
        obtain ⟨hA1, hA2, -⟩ := h
        rw [applyAdminTransition_fst_ok_snd hA1] at hA2
        obtain ⟨f1, f2, f3, f4, f5, f6⟩ := updateApplyDeltas_ok_fields hD
        subst hA2
        have hs' : some sp.speed_bps = cOld.speed_bps := not_not.1 hs
        have hf' : some sp.config_params.fec_mode = cOld.fec_mode := not_not.1 hf
        have hmtu2 : cD.mtu = some sp.config_params.mtu := by
          by_cases hc : some sp.config_params.mtu ≠ cOld.mtu
          · rw [f4, if_pos hc]
          · rw [f4, if_neg hc]
            exact (not_not.1 hc).symm
        have han2 : cD.autoneg = some sp.config_params.autoneg := by
          by_cases hc : some sp.config_params.autoneg ≠ cOld.autoneg
          · rw [f5, if_pos hc]
          · rw [f5, if_neg hc]
            exact (not_not.1 hc).symm
        have hlb2 : cD.loopback_mode = some sp.config_params.loopback_mode := by
          by_cases hc : some sp.config_params.loopback_mode ≠ cOld.loopback_mode
          · rw [f6, if_pos hc]
          · rw [f6, if_neg hc]
            exact (not_not.1 hc).symm
        refine ⟨by simp [f1, hs'.symm], by simp [f2, hf'.symm],
          by simpa using hmtu2, by simpa using han2, by simpa using hlb2,
          ?_, hvalid, ?_⟩
        · -- the resulting admin state is never unknown
          by_cases h2' : (adminTransition sp.config_params.admin_state
              cOld.admin_state chD).2
          · simp [h2']
          · by_cases h1' : (adminTransition sp.config_params.admin_state
                cOld.admin_state chD).1
            · simp [h2', h1']
            · simpa [h2', h1', f3] using hOldAdm
        · -- a disabled request always ends disabled
          intro hd
          rw [hd] at hvalid ⊢
          simp only [adminTransition_fst_disabled]
          by_cases hod : cOld.admin_state = .disabled
          · simp [hod, f3]
          · simp [hod]

theorem updatePortHelper_noop {node_id unit sdk_port_id : Nat} {sp : SingletonPort}
    {cOld : PortConfig} {sde : Sde} (hm : Matches sp cOld)
    (hv : sde.isValidPort unit sdk_port_id = true) :
    (UpdatePortHelper node_id unit sdk_port_id sp cOld sde).1 = .ok () ∧
    (UpdatePortHelper node_id unit sdk_port_id sp cOld sde).2.2 =
      [SdeCall.isValidPort unit sdk_port_id] := by
  obtain ⟨h1, h2, h3, h4, h5, h6, h7, h8⟩ := hm
  have hnd : (adminTransition sp.config_params.admin_state cOld.admin_state false).1
      = false := by
    rcases h7 with hd | he
    · rw [hd, adminTransition_fst_disabled]
      simp [h8 hd]
    · rw [he, adminTransition_fst_enabled]
      simp
  have hdeltas := updateApplyDeltas_nochange unit sdk_port_id sp.config_params cOld
    cOld sde h3 h4 h5
  have happ := @applyAdminTransition_no_disable sp.config_params.admin_state
    cOld.admin_state false unit sdk_port_id cOld sde hnd
  rcases h7 with hd | he
  · rw [hd] at happ
    simp [UpdatePortHelper, hv, h1, h2, hd, hdeltas, happ]
  · rw [he] at happ
    simp [UpdatePortHelper, hv, h1, h2, he, hdeltas, happ]

theorem fmFind2?_insert2_presence {β : Type} (m : List (Nat × List (Nat × β)))
    (n p n' p' : Nat) (v : β) (hp : (fmFind2? m n p).isSome = true) :
    (fmFind2? (fmInsert2 m n' p' v) n p).isSome = true := by
  by_cases hk : (n, p) = (n', p')
  · obtain ⟨h1, h2⟩ := Prod.mk.injEq n p n' p' ▸ hk
    subst h1
    subst h2
    rw [fmFind2?_fmInsert2_self]
    rfl
  · rwa [fmFind2?_fmInsert2_ne _ _ _ _ _ _ hk]

theorem fmFind2?_insert2_presence_rev {β : Type} (m : List (Nat × List (Nat × β)))
    (n p n' p' : Nat) (v : β)
    (hp : (fmFind2? (fmInsert2 m n' p' v) n p).isSome = true) :
    (n, p) = (n', p') ∨ (fmFind2? m n p).isSome = true := by
  by_cases hk : (n, p) = (n', p')
  · exact Or.inl hk
  · right
    rwa [fmFind2?_fmInsert2_ne _ _ _ _ _ _ hk] at hp

theorem pass2_trace_no_mutation (node_id_to_unit : List (Nat × Nat)) (sde : Sde) :
    ∀ (ports : List SingletonPort) (m : PortMaps) (c : SdeCall),
      c ∈ (pass2 node_id_to_unit sde ports m).2 → c.isMutation = false := by
  intro ports
  induction ports with
  | nil => intro m c hc; simp [pass2] at hc
  | cons sp rest ih =>
    intro m c hc
    cases hfind : fmFind? node_id_to_unit sp.node with
    | none => simp [pass2, hfind] at hc
    | some unit =>
      cases hres : sde.getPortIdFromPortKey unit ⟨sp.slot, sp.port, sp.channel⟩ with
      | error e =>
        simp [pass2, hfind, hres] at hc
        simp [hc, SdeCall.isMutation]
      | ok sdk_port =>
        simp only [pass2, hfind, hres, List.mem_cons] at hc
        rcases hc with hc | hc
        · simp [hc, SdeCall.isMutation]
        · exact ih _ _ hc

theorem pass2_ok_presence_mono (node_id_to_unit : List (Nat × Nat)) (sde : Sde) :
    ∀ (ports : List SingletonPort) (m m2 : PortMaps) (n p : Nat),
      (pass2 node_id_to_unit sde ports m).1 = .ok m2 →
      (fmFind2? m.port_config n p).isSome = true →
      (fmFind2? m2.port_config n p).isSome = true := by
  intro ports
  induction ports with
  | nil =>
    intro m m2 n p h hp
    simp [pass2] at h
    rw [← h]
    exact hp
  | cons sp rest ih =>
    intro m m2 n p h hp
    cases hfind : fmFind? node_id_to_unit sp.node with
    | none => simp [pass2, hfind] at h
    | some unit =>
      cases hres : sde.getPortIdFromPortKey unit ⟨sp.slot, sp.port, sp.channel⟩ with
      | error e => simp [pass2, hfind, hres] at h
      | ok sdk_port =>
        simp only [pass2, hfind, hres] at h
        exact ih _ _ _ _ h
          (fmFind2?_insert2_presence m.port_config n p sp.node sp.id {} hp)

theorem pass2_ok_seeds (node_id_to_unit : List (Nat × Nat)) (sde : Sde) :
    ∀ (ports : List SingletonPort) (m m2 : PortMaps),
      (pass2 node_id_to_unit sde ports m).1 = .ok m2 →
      ∀ sp ∈ ports, (fmFind2? m2.port_config sp.node sp.id).isSome = true := by
  intro ports
  induction ports with
  | nil =>
    intro m m2 h sp hsp
    simp at hsp
  | cons sp0 rest ih =>
    intro m m2 h sp hsp
    cases hfind : fmFind? node_id_to_unit sp0.node with
    | none => simp [pass2, hfind] at h
    | some unit =>
      cases hres : sde.getPortIdFromPortKey unit ⟨sp0.slot, sp0.port, sp0.channel⟩ with
      | error e => simp [pass2, hfind, hres] at h
      | ok sdk_port =>
        simp only [pass2, hfind, hres] at h
        rcases List.mem_cons.1 hsp with hsp' | hsp'
        · subst hsp'
          refine pass2_ok_presence_mono node_id_to_unit sde rest _ _ _ _ h ?_
          have := fmFind2?_fmInsert2_self m.port_config sp.node sp.id
            ({} : PortConfig)
          simp [this]
        · exact ih _ _ h sp hsp'

theorem pass2_ok_presence_rev (node_id_to_unit : List (Nat × Nat)) (sde : Sde) :
    ∀ (ports : List SingletonPort) (m m2 : PortMaps) (n p : Nat),
      (pass2 node_id_to_unit sde ports m).1 = .ok m2 →
      (fmFind2? m2.port_config n p).isSome = true →
      (fmFind2? m.port_config n p).isSome = true ∨
        ∃ sp ∈ ports, sp.node = n ∧ sp.id = p := by
  intro ports
  induction ports with
  | nil =>
    intro m m2 n p h hp
    simp [pass2] at h
    left
    rw [h]
    exact hp
  | cons sp0 rest ih =>
    intro m m2 n p h hp
    cases hfind : fmFind? node_id_to_unit sp0.node with
    | none => simp [pass2, hfind] at h
    | some unit =>
      cases hres : sde.getPortIdFromPortKey unit ⟨sp0.slot, sp0.port, sp0.channel⟩ with
      | error e => simp [pass2, hfind, hres] at h
      | ok sdk_port =>
        simp only [pass2, hfind, hres] at h
        rcases ih _ _ _ _ h hp with h' | h'
        · rcases fmFind2?_insert2_presence_rev m.port_config n p sp0.node sp0.id
            {} h' with hk | hk
          · right
            have hk' : n = sp0.node ∧ p = sp0.id := Prod.mk.injEq .. ▸ hk
            exact ⟨sp0, List.mem_cons_self _ _, hk'.1.symm, hk'.2.symm⟩
          · exact Or.inl hk
        · obtain ⟨sp, hsp, hn⟩ := h'
          exact Or.inr ⟨sp, List.mem_cons_of_mem _ hsp, hn⟩

theorem pass2_ok_wf (node_id_to_unit : List (Nat × Nat)) (sde : Sde) :
    ∀ (ports : List SingletonPort) (m m2 : PortMaps),
      (pass2 node_id_to_unit sde ports m).1 = .ok m2 →
      FmWf2 m.port_config → FmWf2 m2.port_config := by
  intro ports
  induction ports with
  | nil =>
    intro m m2 h hw
    simp [pass2] at h
    rw [← h]
    exact hw
  | cons sp rest ih =>
    intro m m2 h hw
    cases hfind : fmFind? node_id_to_unit sp.node with
    | none => simp [pass2, hfind] at h
    | some unit =>
      cases hres : sde.getPortIdFromPortKey unit ⟨sp.slot, sp.port, sp.channel⟩ with
      | error e => simp [pass2, hfind, hres] at h
      | ok sdk_port =>
        simp only [pass2, hfind, hres] at h
        exact ih _ _ h (hw.insert2 sp.node sp.id {})

theorem pass3_cons_ok_shape {st_old : ChassisState} {node_id_to_unit : List (Nat × Nat)}
    {sde : Sde} {sp : SingletonPort} {rest : List SingletonPort} {m m3 : PortMaps}
    (h : (pass3 st_old node_id_to_unit sde (sp :: rest) m).1 = .ok m3) :
    ∃ c1, (pass3 st_old node_id_to_unit sde rest
      { m with port_config := fmInsert2 m.port_config sp.node sp.id c1 }).1
        = .ok m3 := by
  cases hold : fmFind2? st_old.node_id_to_port_id_to_port_config sp.node sp.id with
  | none =>
    rcases hr : AddPortHelper sp.node ((fmFind? node_id_to_unit sp.node).getD 0)
      ((fmFind2? m.sdk_port_id sp.node sp.id).getD 0) sp
      ((fmFind2? m.port_config sp.node sp.id).getD {}) sde with ⟨ra, c1, trA⟩
    cases ra with
    | error e => simp [pass3, hold, hr] at h
    | ok u =>
      simp only [pass3, hold, hr] at h
      exact ⟨c1, h⟩
  | some config_old =>
    by_cases hadm : config_old.admin_state = .unknown
    · rcases hr : AddPortHelper sp.node ((fmFind? node_id_to_unit sp.node).getD 0)
        ((fmFind2? m.sdk_port_id sp.node sp.id).getD 0) sp
        ((fmFind2? m.port_config sp.node sp.id).getD {}) sde with ⟨ra, c1, trA⟩
      cases ra with
      | error e => simp [pass3, hold, hadm, hr] at h
      | ok u =>
        simp only [pass3, hold, hadm, if_true, hr] at h
        refine ⟨c1, ?_⟩
        simpa using h
    · by_cases hsp : config_old.speed_bps = none
      · simp [pass3, hold, hadm, hsp] at h
      · rcases hr : UpdatePortHelper sp.node ((fmFind? node_id_to_unit sp.node).getD 0)
          ((fmFind2? m.sdk_port_id sp.node sp.id).getD 0) sp config_old sde
          with ⟨ra, c1, trA⟩
        cases ra with
        | error e => simp [pass3, hold, hadm, hsp, hr] at h
        | ok u =>
          simp only [pass3, hold, hadm, hsp, hr] at h
          refine ⟨c1, ?_⟩
          simpa using h

theorem pass3_cons_ok_matches {st_old : ChassisState}
    {node_id_to_unit : List (Nat × Nat)} {sde : Sde} {sp : SingletonPort}
    {rest : List SingletonPort} {m m3 : PortMaps}
    (h : (pass3 st_old node_id_to_unit sde (sp :: rest) m).1 = .ok m3)
    (hmtu : sp.config_params.mtu ≠ 0) :
    ∃ c1, Matches sp c1 ∧
      (pass3 st_old node_id_to_unit sde rest
        { m with port_config := fmInsert2 m.port_config sp.node sp.id c1 }).1
          = .ok m3 := by
  cases hold : fmFind2? st_old.node_id_to_port_id_to_port_config sp.node sp.id with
  | none =>
    rcases hr : AddPortHelper sp.node ((fmFind? node_id_to_unit sp.node).getD 0)
      ((fmFind2? m.sdk_port_id sp.node sp.id).getD 0) sp
      ((fmFind2? m.port_config sp.node sp.id).getD {}) sde with ⟨ra, c1, trA⟩
    cases ra with
    | error e => simp [pass3, hold, hr] at h
    | ok u =>
      cases u
      simp only [pass3, hold, hr] at h
      exact ⟨c1, addPortHelper_ok_matches hr hmtu, h⟩
  | some config_old =>
    by_cases hadm : config_old.admin_state = .unknown
    · rcases hr : AddPortHelper sp.node ((fmFind? node_id_to_unit sp.node).getD 0)
        ((fmFind2? m.sdk_port_id sp.node sp.id).getD 0) sp
        ((fmFind2? m.port_config sp.node sp.id).getD {}) sde with ⟨ra, c1, trA⟩
      cases ra with
      | error e => simp [pass3, hold, hadm, hr] at h
      | ok u =>
        cases u
        simp only [pass3, hold, hadm, if_true, hr] at h
        refine ⟨c1, addPortHelper_ok_matches hr hmtu, ?_⟩
        simpa using h
    · by_cases hsp : config_old.speed_bps = none
      · simp [pass3, hold, hadm, hsp] at h
      · rcases hr : UpdatePortHelper sp.node ((fmFind? node_id_to_unit sp.node).getD 0)
          ((fmFind2? m.sdk_port_id sp.node sp.id).getD 0) sp config_old sde
          with ⟨ra, c1, trA⟩
        cases ra with
        | error e => simp [pass3, hold, hadm, hsp, hr] at h
        | ok u =>
          cases u
          simp only [pass3, hold, hadm, hsp, hr] at h
          refine ⟨c1, updatePortHelper_ok_matches hr hmtu hadm, ?_⟩
          simpa using h

theorem pass3_ok_presence_mono (st_old : ChassisState)
    (node_id_to_unit : List (Nat × Nat)) (sde : Sde) :
    ∀ (ports : List SingletonPort) (m m3 : PortMaps) (n p : Nat),
      (pass3 st_old node_id_to_unit sde ports m).1 = .ok m3 →
      (fmFind2? m.port_config n p).isSome = true →
      (fmFind2? m3.port_config n p).isSome = true := by
  intro ports
  induction ports with
  | nil =>
    intro m m3 n p h hp
    simp [pass3] at h
    rw [← h]
    exact hp
  | cons sp rest ih =>
    intro m m3 n p h hp
    obtain ⟨c1, h'⟩ := pass3_cons_ok_shape h
    exact ih _ _ _ _ h' (fmFind2?_insert2_presence _ _ _ _ _ _ hp)

theorem pass3_ok_presence_rev (st_old : ChassisState)
    (node_id_to_unit : List (Nat × Nat)) (sde : Sde) :
    ∀ (ports : List SingletonPort) (m m3 : PortMaps) (n p : Nat),
      (pass3 st_old node_id_to_unit sde ports m).1 = .ok m3 →
      (fmFind2? m3.port_config n p).isSome = true →
      (fmFind2? m.port_config n p).isSome = true ∨
        ∃ sp ∈ ports, sp.node = n ∧ sp.id = p := by
  intro ports
  induction ports with
  | nil =>
    intro m m3 n p h hp
    simp [pass3] at h
    left
    rw [h]
    exact hp
  | cons sp0 rest ih =>
    intro m m3 n p h hp
    obtain ⟨c1, h'⟩ := pass3_cons_ok_shape h
    rcases ih _ _ _ _ h' hp with h'' | h''
    · rcases fmFind2?_insert2_presence_rev m.port_config n p sp0.node sp0.id c1 h''
        with hk | hk
      · right
        have hk' : n = sp0.node ∧ p = sp0.id := Prod.mk.injEq .. ▸ hk
        exact ⟨sp0, List.mem_cons_self _ _, hk'.1.symm, hk'.2.symm⟩
      · exact Or.inl hk
    · obtain ⟨sp, hsp, hn⟩ := h''
      exact Or.inr ⟨sp, List.mem_cons_of_mem _ hsp, hn⟩

theorem pass3_ok_wf (st_old : ChassisState) (node_id_to_unit : List (Nat × Nat))
    (sde : Sde) :
    ∀ (ports : List SingletonPort) (m m3 : PortMaps),
      (pass3 st_old node_id_to_unit sde ports m).1 = .ok m3 →
      FmWf2 m.port_config → FmWf2 m3.port_config := by
  intro ports
  induction ports with
  | nil =>
    intro m m3 h hw
    simp [pass3] at h
    rw [← h]
    exact hw
  | cons sp rest ih =>
    intro m m3 h hw
    obtain ⟨c1, h'⟩ := pass3_cons_ok_shape h
    exact ih _ _ h' (hw.insert2 sp.node sp.id c1)

theorem pass3_preserves_unrelated (st_old : ChassisState)
    (node_id_to_unit : List (Nat × Nat)) (sde : Sde) :
    ∀ (ports : List SingletonPort) (m m3 : PortMaps) (n p : Nat),
      (∀ sp ∈ ports, ¬(sp.node = n ∧ sp.id = p)) →
      (pass3 st_old node_id_to_unit sde ports m).1 = .ok m3 →
      fmFind2? m3.port_config n p = fmFind2? m.port_config n p := by
  intro ports
  induction ports with
  | nil =>
    intro m m3 n p hne h
    simp [pass3] at h
    rw [h]
  | cons sp0 rest ih =>
    intro m m3 n p hne h
    obtain ⟨c1, h'⟩ := pass3_cons_ok_shape h
    have hk : (n, p) ≠ (sp0.node, sp0.id) := by
      intro hk
      have hk' : n = sp0.node ∧ p = sp0.id := Prod.mk.injEq .. ▸ hk
      exact hne sp0 (List.mem_cons_self _ _) ⟨hk'.1.symm, hk'.2.symm⟩
    have := ih _ _ n p (fun sp hsp => hne sp (List.mem_cons_of_mem _ hsp)) h'
    rw [this]
    exact fmFind2?_fmInsert2_ne _ _ _ _ _ _ hk

theorem pass3_ok_writes_matches (st_old : ChassisState)
    (node_id_to_unit : List (Nat × Nat)) (sde : Sde) :
    ∀ (ports : List SingletonPort) (m m3 : PortMaps),
      (pass3 st_old node_id_to_unit sde ports m).1 = .ok m3 →
      (ports.map fun sp => (sp.node, sp.id)).Nodup →
      (∀ sp ∈ ports, sp.config_params.mtu ≠ 0) →
      ∀ sp ∈ ports, ∃ c, fmFind2? m3.port_config sp.node sp.id = some c ∧
        Matches sp c := by
  intro ports
  induction ports with
  | nil =>
    intro m m3 h hnd hmtu sp hsp
    simp at hsp
  | cons sp0 rest ih =>
    intro m m3 h hnd hmtu sp hsp
    obtain ⟨c1, hm1, h'⟩ := pass3_cons_ok_matches h
      (hmtu sp0 (List.mem_cons_self _ _))
    rw [List.map_cons, List.nodup_cons] at hnd
    rcases List.mem_cons.1 hsp with hsp' | hsp'
    · subst hsp'
      have hne : ∀ sp' ∈ rest, ¬(sp'.node = sp.node ∧ sp'.id = sp.id) := by
        intro sp' hsp' hkeys
        exact hnd.1 (by
          rw [← hkeys.1, ← hkeys.2]
          exact List.mem_map_of_mem _ hsp')
      have hpres := pass3_preserves_unrelated st_old node_id_to_unit sde rest _ _
        sp.node sp.id hne h'
      refine ⟨c1, ?_, hm1⟩
      rw [hpres]
      exact fmFind2?_fmInsert2_self _ _ _ _
    · exact ih _ _ h' hnd.2 (fun q hq => hmtu q (List.mem_cons_of_mem _ hq)) sp hsp'

theorem pass3_trace_no_mutation_of_matches (st1 : ChassisState)
    (node_id_to_unit : List (Nat × Nat)) (sde : Sde) :
    ∀ (ports : List SingletonPort) (m : PortMaps) (c : SdeCall),
      (∀ sp ∈ ports, ∃ cm,
        fmFind2? st1.node_id_to_port_id_to_port_config sp.node sp.id = some cm ∧
        Matches sp cm) →
      c ∈ (pass3 st1 node_id_to_unit sde ports m).2 → c.isMutation = false := by
  intro ports
  induction ports with
  | nil =>
    intro m c hmm hc
    simp [pass3] at hc
  | cons sp0 rest ih =>
    intro m c hmm hc
    obtain ⟨cm, hold, hm⟩ := hmm sp0 (List.mem_cons_self _ _)
    have hadm : ¬(cm.admin_state = .unknown) := hm.2.2.2.2.2.1
    have hspd : ¬(cm.speed_bps = none) := by
      rw [hm.1]
      simp
    cases hv : sde.isValidPort ((fmFind? node_id_to_unit sp0.node).getD 0)
      ((fmFind2? m.sdk_port_id sp0.node sp0.id).getD 0) with
    | true =>
      have hnoop := @updatePortHelper_noop sp0.node
        ((fmFind? node_id_to_unit sp0.node).getD 0)
        ((fmFind2? m.sdk_port_id sp0.node sp0.id).getD 0) sp0 cm sde hm hv
      rcases hU : UpdatePortHelper sp0.node ((fmFind? node_id_to_unit sp0.node).getD 0)
        ((fmFind2? m.sdk_port_id sp0.node sp0.id).getD 0) sp0 cm sde with ⟨ra, c1, trA⟩
      rw [hU] at hnoop
      obtain ⟨hra, htrA⟩ := hnoop
      simp only at hra htrA
      subst hra
      subst htrA
      simp only [pass3, hold, hadm, if_false, ite_false, hspd, hU, List.mem_append,
        List.mem_singleton] at hc
      rcases hc with hc | hc
      · rw [hc]
        rfl
      · exact ih _ _ (fun q hq => hmm q (List.mem_cons_of_mem _ hq)) hc
    | false =>
      have hU : UpdatePortHelper sp0.node ((fmFind? node_id_to_unit sp0.node).getD 0)
          ((fmFind2? m.sdk_port_id sp0.node sp0.id).getD 0) sp0 cm sde =
          (.error .portNotValid,
           { cm with admin_state := .unknown, speed_bps := none, fec_mode := none },
           [SdeCall.isValidPort ((fmFind? node_id_to_unit sp0.node).getD 0)
             ((fmFind2? m.sdk_port_id sp0.node sp0.id).getD 0)]) := by
        simp [UpdatePortHelper, hv]
      simp only [pass3, hold, hadm, if_false, ite_false, hspd, hU,
        List.mem_singleton] at hc
      rw [hc]
      rfl

theorem cleanupNodePorts_all_present (st_old : ChassisState)
    (new_config : List (Nat × List (Nat × PortConfig))) (sde : Sde) (node_id : Nat) :
    ∀ (entries : List (Nat × PortConfig)),
      (∀ q ∈ entries, (fmFind2? new_config node_id q.1).isSome = true) →
      cleanupNodePorts st_old new_config sde node_id entries = (.ok (), []) := by
  intro entries
  induction entries with
  | nil => intro hp; simp [cleanupNodePorts]
  | cons q rest ih =>
    intro hp
    have hq := hp q (List.mem_cons_self _ _)
    simp only [cleanupNodePorts, hq, if_true, ite_true]
    exact ih (fun q' hq' => hp q' (List.mem_cons_of_mem _ hq'))

theorem cleanupOldPorts_all_present (st_old : ChassisState)
    (new_config : List (Nat × List (Nat × PortConfig))) (sde : Sde) :
    ∀ (old : List (Nat × List (Nat × PortConfig))),
      (∀ e ∈ old, ∀ q ∈ e.2, (fmFind2? new_config e.1 q.1).isSome = true) →
      cleanupOldPorts st_old new_config sde old = (.ok (), []) := by
  intro old
  induction old with
  | nil => intro hp; simp [cleanupOldPorts]
  | cons e rest ih =>
    intro hp
    have he := cleanupNodePorts_all_present st_old new_config sde e.1 e.2
      (hp e (List.mem_cons_self _ _))
    obtain ⟨n, ports⟩ := e
    simp only [cleanupOldPorts, he]
    simpa using ih (fun e' he' => hp e' (List.mem_cons_of_mem _ he'))

/-- C2 counterexample: for the port whose `config_params` leaves mtu unset
(0), the first push records the default MTU (1500) into the cached config,
so the second identical push sees `config_params.mtu() != config_old.mtu`
(0 vs 1500), sets `config_changed`, and — the port being enabled — issues a
real DisablePort mutation call.  The claim that `config_changed` stays
false and no mutation call is issued on an identical re-push is therefore
false for mtu-unset ports. -/
theorem c2_counterexample :
    SdeCall.disablePort 0 1 ∈ (PushChassisConfig st1C2 cfgC2 sdeOk).2.2 ∧
    (SdeCall.disablePort 0 1).isMutation = true := by
  constructor
  · decide
  · rfl

/-- C2 (amended): for a config whose ports have pairwise-distinct
(node, port) keys and an explicit (nonzero) mtu in every `config_params`,
a successful push followed by a second push of the identical config issues
no Device Interface mutation call during the second push: every per-port
diff finds no change and the admin-state matrix yields neither disable nor
enable.  (The original claim also covered ports with mtu left unset; those
are refuted by `c2_counterexample`.) -/
theorem c2_repush_identical_no_mutation (st0 st1 : ChassisState)
    (cfg : ChassisConfig) (sde : Sde) (tr1 : List SdeCall)
    (hnd : (cfg.singleton_ports.map fun sp => (sp.node, sp.id)).Nodup)
    (hmtu : ∀ sp ∈ cfg.singleton_ports, sp.config_params.mtu ≠ 0)
    (h1 : PushChassisConfig st0 cfg sde = (.ok (), st1, tr1)) :
    ∀ c ∈ (PushChassisConfig st1 cfg sde).2.2, c.isMutation = false := by
  intro c hc
  rcases hp2 : pass2 (buildUnitMaps cfg.nodes).2 sde cfg.singleton_ports {}
    with ⟨r2, tr2⟩
  cases r2 with
  | error e => simp [PushChassisConfig, hp2] at h1
  | ok m2 =>
  rcases hp3 : pass3 st0 (buildUnitMaps cfg.nodes).2 sde cfg.singleton_ports m2
    with ⟨r3, tr3⟩
  cases r3 with
  | error e => simp [PushChassisConfig, hp2, hp3] at h1
  | ok m3 =>
  rcases hcl : cleanupOldPorts st0 m3.port_config sde
    st0.node_id_to_port_id_to_port_config with ⟨rc, trc⟩
  cases rc with
  | error e => simp [PushChassisConfig, hp2, hp3, hcl] at h1
  | ok uc =>
  cases uc
  simp only [PushChassisConfig, hp2, hp3, hcl, Prod.mk.injEq] at h1
  obtain ⟨-, hst, -⟩ := h1
  have hst1 : st1.node_id_to_port_id_to_port_config = m3.port_config := by
    rw [← hst]
  have hp2' : (pass2 (buildUnitMaps cfg.nodes).2 sde cfg.singleton_ports
      ({} : PortMaps)).1 = .ok m2 := by rw [hp2]
  have hp3' : (pass3 st0 (buildUnitMaps cfg.nodes).2 sde cfg.singleton_ports m2).1
      = .ok m3 := by rw [hp3]
  have hmm : ∀ sp ∈ cfg.singleton_ports, ∃ cm,
      fmFind2? st1.node_id_to_port_id_to_port_config sp.node sp.id = some cm ∧
      Matches sp cm := by
    intro sp hsp
    obtain ⟨cm, hfind, hmcm⟩ := pass3_ok_writes_matches st0 (buildUnitMaps cfg.nodes).2
      sde cfg.singleton_ports m2 m3 hp3' hnd hmtu sp hsp
    exact ⟨cm, by rw [hst1]; exact hfind, hmcm⟩
  -- the second push reuses the same (deterministic) pass-2 result
  simp only [PushChassisConfig, hp2] at hc
  rcases hq3 : pass3 st1 (buildUnitMaps cfg.nodes).2 sde cfg.singleton_ports m2
    with ⟨r3q, tr3q⟩
  cases r3q with
  | error e =>
    simp only [hq3, List.mem_append] at hc
    rcases hc with hc | hc
    · exact pass2_trace_no_mutation _ _ _ _ _ (by rw [hp2]; exact hc)
    · exact pass3_trace_no_mutation_of_matches st1 _ sde _ _ _ hmm
        (by rw [hq3]; exact hc)
  | ok m3q =>
    have hq3' : (pass3 st1 (buildUnitMaps cfg.nodes).2 sde cfg.singleton_ports m2).1
        = .ok m3q := by rw [hq3]
    have hwf3 : FmWf2 m3.port_config :=
      pass3_ok_wf st0 _ sde _ _ _ hp3'
        (pass2_ok_wf _ sde _ _ _ hp2' ⟨List.Pairwise.nil, by simp⟩)
    have hpresent : ∀ e ∈ st1.node_id_to_port_id_to_port_config, ∀ q ∈ e.2,
        (fmFind2? m3q.port_config e.1 q.1).isSome = true := by
      rintro ⟨n, inner⟩ he ⟨p, cq⟩ hq
      rw [hst1] at he
      have hfind : fmFind2? m3.port_config n p = some cq :=
        hwf3.find2?_of_mem he hq
      have hsome : (fmFind2? m3.port_config n p).isSome = true := by
        rw [hfind]; rfl
      rcases pass3_ok_presence_rev st0 _ sde _ _ _ n p hp3' hsome with hrev | hrev
      · rcases pass2_ok_presence_rev _ sde _ _ _ n p hp2' hrev with hrev2 | hrev2
        · simp [fmFind2?, fmFind?] at hrev2
        · obtain ⟨sp, hsp, hn, hp⟩ := hrev2
          have hseed := pass2_ok_seeds _ sde _ _ _ hp2' sp hsp
          rw [hn, hp] at hseed
          exact pass3_ok_presence_mono st1 _ sde _ _ _ n p hq3' hseed
      · obtain ⟨sp, hsp, hn, hp⟩ := hrev
        have hseed := pass2_ok_seeds _ sde _ _ _ hp2' sp hsp
        rw [hn, hp] at hseed
        exact pass3_ok_presence_mono st1 _ sde _ _ _ n p hq3' hseed
    have hclean := cleanupOldPorts_all_present st1 m3q.port_config sde
      st1.node_id_to_port_id_to_port_config hpresent
    simp only [hq3, hclean, List.append_nil, List.mem_append] at hc
    rcases hc with hc | hc
    · exact pass2_trace_no_mutation _ _ _ _ _ (by rw [hp2]; exact hc)
    · exact pass3_trace_no_mutation_of_matches st1 _ sde _ _ _ hmm
        (by rw [hq3]; exact hc)

/-- C2 witness: the amended theorem applied to the concrete one-port config
with an explicit mtu; the first push is the successful concrete push and
the validity probe recorded during the second push is not a mutation. -/
theorem c2_repush_identical_no_mutation_witness :
    PushChassisConfig ({} : ChassisState) cfgC2m sdeOk =
      (.ok (), st1C2m, (PushChassisConfig ({} : ChassisState) cfgC2m sdeOk).2.2) ∧
    (SdeCall.isValidPort 0 1).isMutation = false := by
  refine ⟨rfl, ?_⟩
  exact c2_repush_identical_no_mutation {} st1C2m cfgC2m sdeOk
    (PushChassisConfig ({} : ChassisState) cfgC2m sdeOk).2.2
    (by decide) (by decide) rfl (SdeCall.isValidPort 0 1) (by decide)

/-- C1: a chassis config push is atomic at the generation level.  If any
operation fails (node resolution, SDK port id resolution, AddPortHelper,
UpdatePortHelper, the healthy-port speed invariant, or cleanup deletion of
removed ports), `PushChassisConfig` returns the error and the live
generation — all eight member maps and the `initialized_` flag — is the
untouched previous state; on a fully successful push the returned state
carries `initialized_ = true` and all maps are replaced together with the
maps built by passes 1–3. -/
theorem c1_push_generation_atomic (st : ChassisState) (cfg : ChassisConfig)
    (sde : Sde) :
    (∀ e : Err, (PushChassisConfig st cfg sde).1 = .error e →
       (PushChassisConfig st cfg sde).2.1 = st) ∧
    ((PushChassisConfig st cfg sde).1 = .ok () →
       (PushChassisConfig st cfg sde).2.1.initialized = true ∧
       ∃ m2 m3 : PortMaps,
         (pass2 (buildUnitMaps cfg.nodes).2 sde cfg.singleton_ports {}).1 = .ok m2 ∧
         (pass3 st (buildUnitMaps cfg.nodes).2 sde cfg.singleton_ports m2).1
           = .ok m3 ∧
         (PushChassisConfig st cfg sde).2.1.unit_to_node_id
           = (buildUnitMaps cfg.nodes).1 ∧
         (PushChassisConfig st cfg sde).2.1.node_id_to_unit
           = (buildUnitMaps cfg.nodes).2 ∧
         (PushChassisConfig st cfg sde).2.1.node_id_to_port_id_to_port_state
           = m3.port_state ∧
         (PushChassisConfig st cfg sde).2.1.node_id_to_port_id_to_time_last_changed
           = m3.time_last_changed ∧
         (PushChassisConfig st cfg sde).2.1.node_id_to_port_id_to_port_config
           = m3.port_config ∧
         (PushChassisConfig st cfg sde).2.1.node_id_to_port_id_to_singleton_port_key
           = m3.singleton_port_key ∧
         (PushChassisConfig st cfg sde).2.1.node_id_to_port_id_to_sdk_port_id
           = m3.sdk_port_id ∧
         (PushChassisConfig st cfg sde).2.1.node_id_to_sdk_port_id_to_port_id
           = m3.sdk_to_port_id) := by
  rcases hp2 : pass2 (buildUnitMaps cfg.nodes).2 sde cfg.singleton_ports {}
    with ⟨r2, tr2⟩
  cases r2 with
  | error e2 =>
    constructor
    · intro e h
      simp [PushChassisConfig, hp2]
    · intro h
      simp [PushChassisConfig, hp2] at h
  | ok m2 =>
  rcases hp3 : pass3 st (buildUnitMaps cfg.nodes).2 sde cfg.singleton_ports m2
    with ⟨r3, tr3⟩
  cases r3 with
  | error e3 =>
    constructor
    · intro e h
      simp [PushChassisConfig, hp2, hp3]
    · intro h
      simp [PushChassisConfig, hp2, hp3] at h
  | ok m3 =>
  rcases hcl : cleanupOldPorts st m3.port_config sde
    st.node_id_to_port_id_to_port_config with ⟨rc, trc⟩
  cases rc with
  | error ec =>
    constructor
    · intro e h
      simp [PushChassisConfig, hp2, hp3, hcl]
    · intro h
      simp [PushChassisConfig, hp2, hp3, hcl] at h
  | ok uc =>
    cases uc
    constructor
    · intro e h
      simp [PushChassisConfig, hp2, hp3, hcl] at h
    · intro h
      refine ⟨by simp [PushChassisConfig, hp2, hp3, hcl], m2, m3,
        by simp [hp2], by simp [hp3], ?_, ?_, ?_, ?_, ?_, ?_, ?_, ?_⟩ <;>
          simp [PushChassisConfig, hp2, hp3, hcl]

/-- C1 witness: a successful concrete push ends initialized, and a push whose
SDK port id resolution fails leaves the concrete previous generation
untouched. -/
theorem c1_push_generation_atomic_witness :
    (PushChassisConfig {} cfgC2m sdeOk).2.1.initialized = true ∧
    (PushChassisConfig stC10 cfgC2 sdeResolveFail).2.1 = stC10 :=
  ⟨((c1_push_generation_atomic {} cfgC2m sdeOk).2 rfl).1,
   (c1_push_generation_atomic stC10 cfgC2 sdeResolveFail).1 (.device "resolve") rfl⟩

/-- C3 counterexample: an initialized manager (`st1C2`) and a config
(`cfgC3`) that adds a (node, port) → PortKey mapping: VerifyChassisConfig
answers reboot-required, but PushChassisConfig applies it silently,
returning ok with a changed port-layout map — refuting the claim's
"both when the caller invokes PushChassisConfig" half. -/
theorem c3_counterexample :
    st1C2.initialized = true ∧
    (VerifyChassisConfig st1C2 cfgC3 sdeOk).1 = .error .rebootPortLayout ∧
    (PushChassisConfig st1C2 cfgC3 sdeOk).1 = .ok () ∧
    (PushChassisConfig st1C2 cfgC3 sdeOk).2.1.node_id_to_port_id_to_singleton_port_key
      ≠ st1C2.node_id_to_port_id_to_singleton_port_key := by
  refine ⟨rfl, rfl, rfl, by decide⟩

/-- C3 (amended): on an already-initialized manager, a desired config whose
(node, port) → PortKey map or node → unit map differs from the live
generation's is answered with a reboot-required error by
`VerifyChassisConfig` (provided the preceding validation passes, i.e.
`verifyBasic` succeeds), and Verify passes only when both maps agree;
`PushChassisConfig` performs no such layout check (see
`c3_counterexample`), so the guarantee holds only for callers that run
Verify first. -/
theorem c3_verify_reboot_required (st : ChassisState) (cfg : ChassisConfig)
    (sde : Sde) (keyMap : List (Nat × List (Nat × PortKey))) (tr : List SdeCall)
    (hb : verifyBasic cfg sde = (.ok keyMap, tr))
    (hinit : st.initialized = true) :
    (keyMap ≠ st.node_id_to_port_id_to_singleton_port_key →
       VerifyChassisConfig st cfg sde = (.error .rebootPortLayout, tr)) ∧
    (keyMap = st.node_id_to_port_id_to_singleton_port_key →
       (buildUnitMaps cfg.nodes).2 ≠ st.node_id_to_unit →
       VerifyChassisConfig st cfg sde = (.error .rebootNodeUnit, tr)) ∧
    ((VerifyChassisConfig st cfg sde).1 = .ok () →
       keyMap = st.node_id_to_port_id_to_singleton_port_key ∧
       (buildUnitMaps cfg.nodes).2 = st.node_id_to_unit) := by
  refine ⟨?_, ?_, ?_⟩
  · intro hne
    simp [VerifyChassisConfig, hb, hinit, hne]
  · intro heq hne
    simp [VerifyChassisConfig, hb, hinit, heq, hne]
  · intro hok
    by_cases h1 : keyMap = st.node_id_to_port_id_to_singleton_port_key
    · by_cases h2 : (buildUnitMaps cfg.nodes).2 = st.node_id_to_unit
      · exact ⟨h1, h2⟩
      · simp [VerifyChassisConfig, hb, hinit, h1, h2] at hok
    · simp [VerifyChassisConfig, hb, hinit, h1] at hok

/-- C3 witness: the amended theorem applied to the concrete initialized
generation `st1C2` and the layout-changing config `cfgC3`. -/
theorem c3_verify_reboot_required_witness :
    VerifyChassisConfig st1C2 cfgC3 sdeOk =
      (.error .rebootPortLayout, (verifyBasic cfgC3 sdeOk).2) :=
  (c3_verify_reboot_required st1C2 cfgC3 sdeOk kmC3 (verifyBasic cfgC3 sdeOk).2
    rfl rfl).1 (by decide)

/-- C4: for an update of a healthy port (validity probe passes, disable and
delete succeed) whose desired speed differs from the applied one,
`UpdatePortHelper` issues exactly one DisablePort, one DeletePort and then
the AddPortHelper create sequence with the new spec; if that AddPortHelper
fails, a SingletonPort is rebuilt from the old config — same slot, port
and channel, the old speed, admin_state always, and autoneg/mtu/fec_mode
whenever the old config holds them — AddPortHelper is re-run with it as
rollback, and the invalid-parameter error is returned to the caller
regardless of the rollback's own outcome. -/
theorem c4_speed_change_delete_recreate (node_id unit sdk_port_id : Nat)
    (sp : SingletonPort) (cOld : PortConfig) (sde : Sde)
    (hvalid : sde.isValidPort unit sdk_port_id = true)
    (hspeed : some sp.speed_bps ≠ cOld.speed_bps)
    (hdis : sde.disablePort unit sdk_port_id = .ok ())
    (hdel : sde.deletePort unit sdk_port_id = .ok ()) :
    ((rollbackSingletonPort sp cOld).slot = sp.slot ∧
     (rollbackSingletonPort sp cOld).port = sp.port ∧
     (rollbackSingletonPort sp cOld).channel = sp.channel ∧
     (rollbackSingletonPort sp cOld).speed_bps = cOld.speed_bps.getD 0 ∧
     (rollbackSingletonPort sp cOld).config_params.admin_state = cOld.admin_state ∧
     (∀ a, cOld.autoneg = some a →
        (rollbackSingletonPort sp cOld).config_params.autoneg = a) ∧
     (∀ m, cOld.mtu = some m →
        (rollbackSingletonPort sp cOld).config_params.mtu = m) ∧
     (∀ f, cOld.fec_mode = some f →
        (rollbackSingletonPort sp cOld).config_params.fec_mode = f)) ∧
    (∀ c1 trA,
       AddPortHelper node_id unit sdk_port_id sp cOld sde = (.ok (), c1, trA) →
       UpdatePortHelper node_id unit sdk_port_id sp cOld sde =
         (.ok (), c1,
          [SdeCall.isValidPort unit sdk_port_id,
           SdeCall.disablePort unit sdk_port_id,
           SdeCall.deletePort unit sdk_port_id] ++ trA)) ∧
    (∀ eA c1 trA,
       AddPortHelper node_id unit sdk_port_id sp cOld sde = (.error eA, c1, trA) →
       UpdatePortHelper node_id unit sdk_port_id sp cOld sde =
         (.error .addWithNewSpeedFailed,
          (AddPortHelper node_id unit sdk_port_id
            (rollbackSingletonPort sp cOld) c1 sde).2.1,
          [SdeCall.isValidPort unit sdk_port_id,
           SdeCall.disablePort unit sdk_port_id,
           SdeCall.deletePort unit sdk_port_id] ++ trA ++
          (AddPortHelper node_id unit sdk_port_id
            (rollbackSingletonPort sp cOld) c1 sde).2.2)) := by
  refine ⟨?_, ?_, ?_⟩
  · cases hAopt : cOld.autoneg <;> cases hMopt : cOld.mtu <;>
      cases hFopt : cOld.fec_mode <;>
        simp [rollbackSingletonPort, BuildSingletonPort, hAopt, hMopt, hFopt]
  · intro c1 trA hA
    simp [UpdatePortHelper, hvalid, hspeed, hdis, hdel, hA]
  · intro eA c1 trA hA
    simp [UpdatePortHelper, hvalid, hspeed, hdis, hdel, hA]

/-- C4 witness: the ok-branch of the theorem at a concrete healthy port
whose speed changes from 10 to 20 under the all-ok oracle. -/
theorem c4_speed_change_delete_recreate_witness :
    UpdatePortHelper 1 0 7 spC4 cOldC4 sdeOk =
      (.ok (), (AddPortHelper 1 0 7 spC4 cOldC4 sdeOk).2.1,
       [SdeCall.isValidPort 0 7, SdeCall.disablePort 0 7,
        SdeCall.deletePort 0 7] ++ (AddPortHelper 1 0 7 spC4 cOldC4 sdeOk).2.2) :=
  (c4_speed_change_delete_recreate 1 0 7 spC4 cOldC4 sdeOk rfl (by decide)
    rfl rfl).2.1 (AddPortHelper 1 0 7 spC4 cOldC4 sdeOk).2.1
    (AddPortHelper 1 0 7 spC4 cOldC4 sdeOk).2.2 rfl

/-- C6 counterexample: at a healthy port differing from its applied config
only in fec_mode, `UpdatePortHelper` does return the unimplemented
FEC-change error without mutating the cached config, but its trace is
`[IsValidPort]`, not empty — one Device Interface call (the existence
probe) is issued, refuting "issues zero Device Interface calls". -/
theorem c6_counterexample :
    (UpdatePortHelper 1 0 7 spC6 cOld6 sdeOk).1 = .error .fecModeChanged ∧
    (UpdatePortHelper 1 0 7 spC6 cOld6 sdeOk).2.1 = cOld6 ∧
    (UpdatePortHelper 1 0 7 spC6 cOld6 sdeOk).2.2 = [SdeCall.isValidPort 0 7] ∧
    [SdeCall.isValidPort 0 7] ≠ ([] : List SdeCall) :=
  ⟨rfl, rfl, rfl, by decide⟩

/-- C6 (amended): for every update of a healthy port whose desired config
differs from the applied one only in fec_mode, `UpdatePortHelper` returns
the unimplemented FEC-change error, leaves the cached config exactly as it
was, and issues no mutating Device Interface call — the only call in its
trace is the initial IsValidPort existence probe. -/
theorem c6_fec_change_unimplemented (node_id unit sdk_port_id : Nat)
    (sp : SingletonPort) (cOld : PortConfig) (sde : Sde)
    (hvalid : sde.isValidPort unit sdk_port_id = true)
    (hspeed : some sp.speed_bps = cOld.speed_bps)
    (hfec : some sp.config_params.fec_mode ≠ cOld.fec_mode) :
    UpdatePortHelper node_id unit sdk_port_id sp cOld sde =
      (.error .fecModeChanged, cOld, [SdeCall.isValidPort unit sdk_port_id]) ∧
    (∀ c ∈ [SdeCall.isValidPort unit sdk_port_id], c.isMutation = false) := by
  constructor
  · simp [UpdatePortHelper, hvalid, hspeed, hfec]
  · intro c hc
    simp at hc
    rw [hc]
    rfl

/-- C6 witness: the amended theorem at the concrete fec-only change. -/
theorem c6_fec_change_unimplemented_witness :
    UpdatePortHelper 1 0 7 spC6 cOld6 sdeOk =
      (.error .fecModeChanged, cOld6, [SdeCall.isValidPort 0 7]) :=
  (c6_fec_change_unimplemented 1 0 7 spC6 cOld6 sdeOk rfl rfl (by decide)).1

/-- C5: for every `UpdatePortHelper` call that reaches the admin-state
decision (valid port, no speed or FEC change, valid requested admin state,
field setters and DisablePort succeeding), the need_disable/need_enable
booleans satisfy exactly the claimed matrix formulas — the port is
disabled exactly when (disabled requested ∧ was enabled) or (enabled
requested ∧ some field delta set config_changed ∧ was enabled), and
enabled exactly when it was just disabled for a config change or (enabled
requested ∧ was disabled) — the helper succeeds, exactly one DisablePort
backend call is issued when need_disable holds and none otherwise, and the
resulting admin state follows the matrix (the enable action commits the
cached admin state; the EnablePort backend call is commented out in the
source). -/
theorem c5_admin_state_matrix (node_id unit sdk_port_id : Nat)
    (sp : SingletonPort) (cOld : PortConfig) (sde : Sde)
    (hvalid : sde.isValidPort unit sdk_port_id = true)
    (hspeed : some sp.speed_bps = cOld.speed_bps)
    (hfec : some sp.config_params.fec_mode = cOld.fec_mode)
    (hadmin : sp.config_params.admin_state = .disabled ∨
              sp.config_params.admin_state = .enabled)
    (hold : cOld.admin_state = .disabled ∨ cOld.admin_state = .enabled)
    (han : sde.setPortAutonegPolicy unit sdk_port_id sp.config_params.autoneg
             = .ok ())
    (hlb : sde.setPortLoopbackMode unit sdk_port_id sp.config_params.loopback_mode
             = .ok ())
    (hdis : sde.disablePort unit sdk_port_id = .ok ()) :
    ((adminTransition sp.config_params.admin_state cOld.admin_state
        (deltaChanged sp.config_params cOld)).1 = true ↔
      ((sp.config_params.admin_state = .disabled ∧ cOld.admin_state = .enabled) ∨
       (sp.config_params.admin_state = .enabled ∧
        deltaChanged sp.config_params cOld = true ∧
        cOld.admin_state = .enabled))) ∧
    ((adminTransition sp.config_params.admin_state cOld.admin_state
        (deltaChanged sp.config_params cOld)).2 = true ↔
      ((sp.config_params.admin_state = .enabled ∧
        deltaChanged sp.config_params cOld = true ∧
        cOld.admin_state = .enabled) ∨
       (sp.config_params.admin_state = .enabled ∧
        cOld.admin_state = .disabled))) ∧
    (UpdatePortHelper node_id unit sdk_port_id sp cOld sde).1 = .ok () ∧
    ((UpdatePortHelper node_id unit sdk_port_id sp cOld sde).2.2.count
       (SdeCall.disablePort unit sdk_port_id) =
      if (adminTransition sp.config_params.admin_state cOld.admin_state
           (deltaChanged sp.config_params cOld)).1 then 1 else 0) ∧
    ((UpdatePortHelper node_id unit sdk_port_id sp cOld sde).2.1.admin_state =
      if (adminTransition sp.config_params.admin_state cOld.admin_state
           (deltaChanged sp.config_params cOld)).2 then .enabled
      else if (adminTransition sp.config_params.admin_state cOld.admin_state
                (deltaChanged sp.config_params cOld)).1 then .disabled
      else cOld.admin_state) := by
  have hu2 : ¬ sp.config_params.admin_state = .unknown := by
    rcases hadmin with h | h <;> simp [h]
  have hd2 : ¬ sp.config_params.admin_state = .diag := by
    rcases hadmin with h | h <;> simp [h]
  have hD := updateApplyDeltas_all_ok unit sdk_port_id sp.config_params cOld cOld
    sde han hlb
  refine ⟨?_, ?_, ?_, ?_, ?_⟩
  · rcases hadmin with hd | hd <;> rcases hold with ho | ho <;>
      simp [hd, ho, adminTransition_fst_disabled, adminTransition_fst_enabled]
  · rcases hadmin with hd | hd <;> rcases hold with ho | ho <;>
      simp [hd, ho, adminTransition_fst_disabled, adminTransition_fst_enabled]
  · simp [UpdatePortHelper, hvalid, hspeed, hfec, hu2, hd2, hD,
      applyAdminTransition_all_ok, hdis]
  · simp [UpdatePortHelper, hvalid, hspeed, hfec, hu2, hd2, hD,
      applyAdminTransition_all_ok, hdis, deltaChanged, List.count_append]
    by_cases h2 : some sp.config_params.autoneg = cOld.autoneg <;>
      by_cases h3 : some sp.config_params.loopback_mode = cOld.loopback_mode <;>
        simp [h2, h3, List.count_cons] <;> split <;> simp
  · simp [UpdatePortHelper, hvalid, hspeed, hfec, hu2, hd2, hD,
      applyAdminTransition_all_ok, hdis, deltaChanged]

/-- C5 witness: the admin-state matrix theorem applied to the concrete
(disabled → enabled, no field change) cell: the update succeeds and issues
no DisablePort call. -/
theorem c5_admin_state_matrix_witness :
    (UpdatePortHelper 1 0 7 spW5 cOldW5 sdeOk).1 = .ok () ∧
    (UpdatePortHelper 1 0 7 spW5 cOldW5 sdeOk).2.2.count (SdeCall.disablePort 0 7)
      = 0 ∧
    (UpdatePortHelper 1 0 7 spW5 cOldW5 sdeOk).2.1.admin_state = .enabled := by
  have h := c5_admin_state_matrix 1 0 7 spW5 cOldW5 sdeOk rfl rfl rfl
    (Or.inr rfl) (Or.inl rfl) rfl rfl rfl
  refine ⟨h.2.2.1, ?_, ?_⟩
  · have := h.2.2.2.1
    simpa using this
  · have := h.2.2.2.2
    simpa using this

/-- C9: whenever `AddPortHelper` returns success, the output `PortConfig`
satisfies the invariant the push and replay paths rely on: speed_bps,
fec_mode and mtu all hold values, and admin_state is enabled exactly when
the desired admin state was enabled and disabled otherwise — never
unknown. -/
theorem c9_add_port_output_invariant (node_id unit sdk_port_id : Nat)
    (sp : SingletonPort) (c0 c : PortConfig) (tr : List SdeCall) (sde : Sde)
    (h : AddPortHelper node_id unit sdk_port_id sp c0 sde = (.ok (), c, tr)) :
    c.speed_bps.isSome = true ∧ c.fec_mode.isSome = true ∧ c.mtu.isSome = true ∧
    c.admin_state =
      (if sp.config_params.admin_state = .enabled then .enabled else .disabled) ∧
    c.admin_state ≠ .unknown := by
  obtain ⟨h1, h2, h3, h4, h5, h6, h7⟩ := addPortHelper_ok_fields h
  refine ⟨by simp [h1], by simp [h2], by simp [h3], h6, ?_⟩
  rw [h6]
  split <;> simp

/-- C9 witness: the invariant at a concrete successful AddPortHelper run
(enabled desired state). -/
theorem c9_add_port_output_invariant_witness :
    (AddPortHelper 1 0 7 spC2m {} sdeOk).2.1.admin_state = .enabled ∧
    (AddPortHelper 1 0 7 spC2m {} sdeOk).2.1.speed_bps.isSome = true ∧
    (AddPortHelper 1 0 7 spC2m {} sdeOk).2.1.mtu.isSome = true := by
  have h := c9_add_port_output_invariant 1 0 7 spC2m {}
    (AddPortHelper 1 0 7 spC2m {} sdeOk).2.1
    (AddPortHelper 1 0 7 spC2m {} sdeOk).2.2 sdeOk rfl
  exact ⟨h.2.2.2.1.trans (by rfl), h.1, h.2.2.1⟩

/-- C8 counterexample: on a manager with no live generation, `GetPortConfig`
does not fail with the not-initialized error — the source has no
`initialized_` guard there — but with the node-not-known lookup failure. -/
theorem c8_counterexample :
    ({} : ChassisState).initialized = false ∧
    GetPortConfig {} 1 2 = .error .nodeNotKnown ∧
    Err.nodeNotKnown ≠ Err.notInitialized :=
  ⟨rfl, rfl, by decide⟩

/-- C8 (amended): with no live generation, GetSdkPortId, GetPortCounters,
GetPortTimeLastChanged and GetUnitFromNodeId fail with the not-initialized
error, while GetPortConfig — which has no initialized guard — fails with
the node-not-known lookup error (the maps of an uninitialized manager being
empty); with a live generation but the requested key absent, every getter
fails with the not-found-style lookup errors. -/
theorem c8_guarded_lookups (st : ChassisState) (node_id port_id : Nat) (sde : Sde) :
    (st.initialized = false →
      GetSdkPortId st node_id port_id = .error .notInitialized ∧
      GetUnitFromNodeId st node_id = .error .notInitialized ∧
      GetPortTimeLastChanged st node_id port_id = .error .notInitialized ∧
      (GetPortCounters st node_id port_id sde).1 = .error .notInitialized) ∧
    (st.node_id_to_port_id_to_port_config = [] →
      GetPortConfig st node_id port_id = .error .nodeNotKnown) ∧
    (fmFind? st.node_id_to_port_id_to_port_config node_id = none →
      GetPortConfig st node_id port_id = .error .nodeNotKnown) ∧
    (∀ inner, fmFind? st.node_id_to_port_id_to_port_config node_id = some inner →
      fmFind? inner port_id = none →
      GetPortConfig st node_id port_id = .error .portNotKnown) ∧
    (st.initialized = true →
      fmFind? st.node_id_to_port_id_to_sdk_port_id node_id = none →
      GetSdkPortId st node_id port_id = .error .nodeNotKnown) ∧
    (st.initialized = true → ∀ inner,
      fmFind? st.node_id_to_port_id_to_sdk_port_id node_id = some inner →
      fmFind? inner port_id = none →
      GetSdkPortId st node_id port_id = .error .portNotKnown) ∧
    (st.initialized = true → fmFind? st.node_id_to_unit node_id = none →
      GetUnitFromNodeId st node_id = .error .nodeNotKnown) ∧
    (st.initialized = true →
      fmFind? st.node_id_to_port_id_to_time_last_changed node_id = none →
      GetPortTimeLastChanged st node_id port_id = .error .nodeNotKnown) ∧
    (st.initialized = true → ∀ inner,
      fmFind? st.node_id_to_port_id_to_time_last_changed node_id = some inner →
      fmFind? inner port_id = none →
      GetPortTimeLastChanged st node_id port_id = .error .portNotKnown) ∧
    (st.initialized = true → fmFind? st.node_id_to_unit node_id = none →
      (GetPortCounters st node_id port_id sde).1 = .error .nodeNotKnown) := by
  refine ⟨?_, ?_, ?_, ?_, ?_, ?_, ?_, ?_, ?_, ?_⟩
  · intro h
    refine ⟨?_, ?_, ?_, ?_⟩ <;>
      simp [GetSdkPortId, GetUnitFromNodeId, GetPortTimeLastChanged,
        GetPortCounters, h]
  · intro h
    simp [GetPortConfig, h, fmFind?]
  · intro h
    simp [GetPortConfig, h]
  · intro inner h1 h2
    simp [GetPortConfig, h1, h2]
  · intro h1 h2
    simp [GetSdkPortId, h1, h2]
  · intro h1 inner h2 h3
    simp [GetSdkPortId, h1, h2, h3]
  · intro h1 h2
    simp [GetUnitFromNodeId, h1, h2]
  · intro h1 h2
    simp [GetPortTimeLastChanged, h1, h2]
  · intro h1 inner h2 h3
    simp [GetPortTimeLastChanged, h1, h2, h3]
  · intro h1 h2
    simp [GetPortCounters, GetUnitFromNodeId, h1, h2]

/-- C8 witness: the amended theorem at the empty (uninitialized) state and at
the initialized `stC10` with an absent node key. -/
theorem c8_guarded_lookups_witness :
    GetSdkPortId {} 1 2 = .error .notInitialized ∧
    GetPortConfig {} 1 2 = .error .nodeNotKnown ∧
    GetUnitFromNodeId stC10 7 = .error .nodeNotKnown := by
  refine ⟨((c8_guarded_lookups {} 1 2 sdeOk).1 rfl).1,
    (c8_guarded_lookups {} 1 2 sdeOk).2.1 rfl,
    ((c8_guarded_lookups stC10 7 2 sdeOk).2.2.2.2.2.2.1 rfl (by decide))⟩

/-- C7: for an initialized manager and a known node, `ReplayPortsConfig`
attempts the replay of every cached port of the node and returns the
accumulated list of all per-port failures (empty meaning overall success)
rather than aborting at the first one; a port whose stored admin_state is
unknown is skipped successfully with no error and no backend call, and a
port with a known admin_state but a missing speed_bps or fec_mode
contributes an internal-invariant error. -/
theorem c7_replay_accumulates_errors (st : ChassisState) (node_id unitv : Nat)
    (sde : Sde) (hinit : st.initialized = true)
    (hunit : fmFind? st.node_id_to_unit node_id = some unitv) :
    ((ReplayPortsConfig st node_id sde).1 =
      ((fmFind? (replayResetState st node_id).node_id_to_port_id_to_port_config
          node_id).getD []).filterMap
        (fun p =>
          match (replayOnePort (replayResetState st node_id) node_id unitv p.1
              p.2 sde).1 with
          | .error e => some e
          | .ok _ => none)) ∧
    (∀ (st2 : ChassisState) (n u pid : Nat) (c : PortConfig) (sde2 : Sde),
      c.admin_state = .unknown →
      replayOnePort st2 n u pid c sde2 = (.ok (), {}, [])) ∧
    (∀ (st2 : ChassisState) (n u pid : Nat) (c : PortConfig) (sde2 : Sde),
      c.admin_state ≠ .unknown → c.speed_bps = none →
      replayOnePort st2 n u pid c sde2 = (.error .speedBpsMissing, {}, [])) ∧
    (∀ (st2 : ChassisState) (n u pid : Nat) (c : PortConfig) (sde2 : Sde),
      c.admin_state ≠ .unknown → c.speed_bps ≠ none → c.fec_mode = none →
      replayOnePort st2 n u pid c sde2 = (.error .fecModeMissing, {}, [])) := by
  have hg : GetUnitFromNodeId st node_id = .ok unitv := by
    simp [GetUnitFromNodeId, hinit, hunit]
  refine ⟨?_, ?_, ?_, ?_⟩
  · simp only [ReplayPortsConfig, hinit, hg, List.filterMap_map]
    rfl
  · intro st2 n u pid c sde2 ha
    simp [replayOnePort, ha]
  · intro st2 n u pid c sde2 ha hs
    simp [replayOnePort, ha, hs]
  · intro st2 n u pid c sde2 ha hs hf
    simp [replayOnePort, ha, hs, hf]

/-- C7 witness: replaying the concrete two-port generation (one
never-configured port, one healthy port) through the all-ok oracle
accumulates no error, and the skipped port contributes the ok result. -/
theorem c7_replay_accumulates_errors_witness :
    (ReplayPortsConfig stC7 1 sdeOk).1 = [] ∧
    replayOnePort (replayResetState stC7 1) 1 0 5 {} sdeOk = (.ok (), {}, []) := by
  have h := c7_replay_accumulates_errors stC7 1 0 sdeOk rfl rfl
  exact ⟨h.1.trans (by rfl), h.2.1 (replayResetState stC7 1) 1 0 5 {} sdeOk rfl⟩

/-- C10 counterexample: replaying `stC10` (whose port 5 has an engaged
autoneg) through an oracle whose SetPortAutonegPolicy fails makes the
port's replay fail partway *after* a successful AddPort: the cached entry
is overwritten with the partially rebuilt config whose admin_state is
DISABLED — not a freshly default-constructed PortConfig with admin_state
unknown, refuting that half of the claim. -/
theorem c10_counterexample :
    ((fmFind2? (ReplayPortsConfig stC10 1 sdeAnFail).2.1.node_id_to_port_id_to_port_config
        1 5).getD {}).admin_state = .disabled ∧
    AdminState.disabled ≠ AdminState.unknown ∧
    (ReplayPortsConfig stC10 1 sdeAnFail).1 = [.device "autoneg"] :=
  ⟨rfl, by decide, rfl⟩

/-- C10 (amended): `ReplayPortsConfig` unconditionally overwrites each cached
port config of the node with that port's replay result; a skipped port
(stored admin_state unknown) gets a freshly default-constructed PortConfig
(admin_state unknown), and a failed replay leaves either the
default-constructed config (when the failure happened at or before the
AddPort call) or a partially rebuilt config whose admin_state is DISABLED
(when a setter failed after a successful AddPort) — never an enabled or
unknown-partial one. -/
theorem c10_replay_overwrites (st : ChassisState) (node_id unitv : Nat)
    (sde : Sde) (hinit : st.initialized = true)
    (hunit : fmFind? st.node_id_to_unit node_id = some unitv) :
    (fmFind? (ReplayPortsConfig st node_id sde).2.1.node_id_to_port_id_to_port_config
        node_id =
      some (((fmFind? (replayResetState st node_id).node_id_to_port_id_to_port_config
          node_id).getD []).map
        (fun p => (p.1, (replayOnePort (replayResetState st node_id) node_id unitv
          p.1 p.2 sde).2.1)))) ∧
    (∀ (st2 : ChassisState) (n u pid : Nat) (c : PortConfig) (sde2 : Sde),
      c.admin_state = .unknown → (replayOnePort st2 n u pid c sde2).2.1 = {}) ∧
    (∀ (st2 : ChassisState) (n u pid : Nat) (c : PortConfig) (sde2 : Sde)
       (e : Err) (cnew : PortConfig) (tr : List SdeCall),
      replayOnePort st2 n u pid c sde2 = (.error e, cnew, tr) →
      cnew = {} ∨ cnew.admin_state = .disabled) := by
  have hg : GetUnitFromNodeId st node_id = .ok unitv := by
    simp [GetUnitFromNodeId, hinit, hunit]
  refine ⟨?_, ?_, ?_⟩
  · simp [ReplayPortsConfig, hinit, hg, fmFind?_fmInsert_self, List.map_map,
      Function.comp]
  · intro st2 n u pid c sde2 ha
    simp [replayOnePort, ha]
  · intro st2 n u pid c sde2 e cnew tr h
    by_cases ha : c.admin_state = .unknown
    · simp [replayOnePort, ha] at h
    by_cases hs : c.speed_bps = none
    · simp [replayOnePort, ha, hs] at h
      exact Or.inl h.2.1.symm
    by_cases hf : c.fec_mode = none
    · simp [replayOnePort, ha, hs, hf] at h
      exact Or.inl h.2.1.symm
    rcases hsdk : GetSdkPortId st2 n pid with eS | sdk
    · simp [replayOnePort, ha, hs, hf, hsdk] at h
      exact Or.inl h.2.1.symm
    rcases hadd : sde2.addPortSimple u sdk (c.speed_bps.getD 0) (c.fec_mode.getD 0)
      with eA | uA
    · simp [replayOnePort, ha, hs, hf, hsdk, hadd] at h
      exact Or.inl h.2.1.symm
    · cases uA
      simp only [replayOnePort, ha, hs, hf, hsdk, hadd, if_false, ite_false] at h
      repeat' split at h
      all_goals simp only [Prod.mk.injEq] at h
      all_goals
        first
        | (obtain ⟨h1, -, -⟩ := h
           exact Except.noConfusion h1)
        | (obtain ⟨-, hc, -⟩ := h
           subst hc
           exact Or.inr rfl)

/-- C10 witness: the amended theorem at the concrete two-port generation:
the node's cached configs are overwritten with the per-port replay
results, and the skipped port's entry is the default config. -/
theorem c10_replay_overwrites_witness :
    fmFind? (ReplayPortsConfig stC7 1 sdeOk).2.1.node_id_to_port_id_to_port_config
        1 =
      some (((fmFind? (replayResetState stC7 1).node_id_to_port_id_to_port_config
          1).getD []).map
        (fun p => (p.1, (replayOnePort (replayResetState stC7 1) 1 0 p.1 p.2
          sdeOk).2.1))) ∧
    (replayOnePort (replayResetState stC7 1) 1 0 5 ({} : PortConfig) sdeOk).2.1
      = {} := by
  have h := c10_replay_overwrites stC7 1 0 sdeOk rfl rfl
  exact ⟨h.1, h.2.1 (replayResetState stC7 1) 1 0 5 {} sdeOk rfl⟩

end DpdkChassis
